import Mathlib

/-!
Verification development for the supply-chain tracking core:
the local hash-chained ledger (`local_blockchain.rs`) and the
workflow orchestrator (`workflows.rs`, hash helpers in `chain.rs`).

Modelling conventions:
* SHA-256 over the JSON serialization of the block content (the source's
  `calculate_hash` applied to the `block_content` value built in
  `add_fpo_purchase`) is modelled as an ideal injective hash: a digest is
  identified with the structured content it hashes.  Distinct field tuples
  serialize to distinct JSON strings (JSON escapes string values), so the
  idealization only removes SHA-256 collisions.
* `chrono::Utc::now` and `generate_block_id` are external inputs; they are
  passed to the model as explicit arguments.
* `fs::write` in `save` can fail; the outcome of the durable write is passed
  as an explicit `Except String Unit` argument.
* Rust `HashMap<String, Vec<String>>` is modelled as a function
  `String → Option (List Digest)` updated pointwise; `Vec` push is list
  append on the right.
-/

/-- The content hashed by `LocalBlockchain::calculate_hash` in
`add_fpo_purchase` (source lines 95–107): block_id, previous_block_hash,
timestamp, transaction_type = "fpo_purchase", batch_id, farmer_did,
ipfs_cid, version and transaction_data.  The optional predecessor digest is
encoded by the two constructors (`first` for `None`, `chained` for
`Some prev`).  A digest is identified with its hashed content (ideal
injective hash). -/
inductive Digest : Type where
  | first (block_id : String) (timestamp : Nat)
      (transaction_type : String) (batch_id : String) (farmer_did : String)
      (ipfs_cid : String) (version : Nat) (transaction_data : String) : Digest
  | chained (block_id : String) (prev : Digest) (timestamp : Nat)
      (transaction_type : String) (batch_id : String) (farmer_did : String)
      (ipfs_cid : String) (version : Nat) (transaction_data : String) : Digest
deriving DecidableEq, Repr

/-- Build the digest of a block content with an optional predecessor,
mirroring the `previous_block_hash` field of the hashed JSON value. -/
def Digest.ofContent (block_id : String) (prev : Option Digest) (timestamp : Nat)
    (transaction_type : String) (batch_id : String) (farmer_did : String)
    (ipfs_cid : String) (version : Nat) (transaction_data : String) : Digest :=
  match prev with
  | none => .first block_id timestamp transaction_type batch_id farmer_did
      ipfs_cid version transaction_data
  | some p => .chained block_id p timestamp transaction_type batch_id farmer_did
      ipfs_cid version transaction_data

/-- The `ipfs_cid` component of a hashed content. -/
def Digest.cidOf : Digest → String
  | .first _ _ _ _ _ c _ _ => c
  | .chained _ _ _ _ _ _ c _ _ => c

/-- `Block` (source lines 8–19).  Note that the struct does not store the
`ipfs_cid` that participated in the hash. -/
structure Block where
  block_id : String
  previous_block_hash : Option Digest
  timestamp : Nat
  transaction_type : String
  batch_id : String
  farmer_did : String
  transaction_data : String
  block_hash : Digest
  version : Nat
deriving DecidableEq, Repr

/-- `BlockReceipt` (source lines 27–33). -/
structure BlockReceipt where
  block_hash : Digest
  block_id : String
  version : Nat
  is_update : Bool
deriving DecidableEq, Repr

/-- `LocalBlockchain` (source lines 21–25): the block list plus the
`batch_id → [block_hashes]` index. -/
structure LocalBlockchain where
  blocks : List Block
  batch_history : String → Option (List Digest)

/-- `LocalBlockchain::new` (source lines 38–43). -/
def LocalBlockchain.new : LocalBlockchain :=
  { blocks := [], batch_history := fun _ => none }

/-- Source lines 81–86 of `add_fpo_purchase`: the predecessor hash is the
last hash recorded for the batch, absent when the key is unknown. -/
def LocalBlockchain.prevHash (lb : LocalBlockchain) (batch_id : String) :
    Option Digest :=
  match lb.batch_history batch_id with
  | some blocks => blocks.getLast?
  | none => none

/-- Source line 88: `previous_blocks.map(|b| b.len() as u32 + 1).unwrap_or(1)`. -/
def LocalBlockchain.nextVersion (lb : LocalBlockchain) (batch_id : String) : Nat :=
  match lb.batch_history batch_id with
  | some b => b.length + 1
  | none => 1

/-- Source lines 94–119 of `add_fpo_purchase`: the hashed `block_content`
and the `Block` built from it.  `block_id` and `timestamp` are the values
produced by `generate_block_id()` and `Utc::now()`. -/
def LocalBlockchain.newBlockOf (lb : LocalBlockchain) (batch_id farmer_did ipfs_cid
    transaction_data block_id : String) (timestamp : Nat) : Block :=
  { block_id := block_id,
    previous_block_hash := lb.prevHash batch_id,
    timestamp := timestamp,
    transaction_type := "fpo_purchase",
    batch_id := batch_id,
    farmer_did := farmer_did,
    transaction_data := transaction_data,
    block_hash := Digest.ofContent block_id (lb.prevHash batch_id) timestamp
      "fpo_purchase" batch_id farmer_did ipfs_cid (lb.nextVersion batch_id)
      transaction_data,
    version := lb.nextVersion batch_id }

/-- The in-memory part of `LocalBlockchain::add_fpo_purchase`
(source lines 74–129): pushes the new block onto `blocks` (line 122),
appends its hash to the batch index (lines 125–128), and builds the
receipt that lines 143–148 return after a successful save. -/
def LocalBlockchain.addCore (lb : LocalBlockchain) (batch_id farmer_did ipfs_cid
    transaction_data block_id : String) (timestamp : Nat) :
    LocalBlockchain × BlockReceipt :=
  let block := lb.newBlockOf batch_id farmer_did ipfs_cid transaction_data
    block_id timestamp
  ({ blocks := lb.blocks ++ [block],
     batch_history := fun k =>
       if k = batch_id then
         some (((lb.batch_history batch_id).getD []) ++ [block.block_hash])
       else lb.batch_history k },
   { block_hash := block.block_hash, block_id := block_id,
     version := lb.nextVersion batch_id,
     is_update := (lb.prevHash batch_id).isSome })

/-- `LocalBlockchain::add_fpo_purchase` (source lines 74–149) including the
durable write of line 131: the in-memory mutations happen first, then
`self.save()?`.  `saveRes` is the outcome of `save`; on failure the `?`
operator propagates the error, and the method returns with the mutations
retained (the source contains no rollback).  The returned state is the value
of `self` when the method returns. -/
def LocalBlockchain.add_fpo_purchase (lb : LocalBlockchain) (batch_id farmer_did
    ipfs_cid transaction_data block_id : String) (timestamp : Nat)
    (saveRes : Except String Unit) :
    LocalBlockchain × Except String BlockReceipt :=
  let r := lb.addCore batch_id farmer_did ipfs_cid transaction_data block_id timestamp
  match saveRes with
  | .ok _ => (r.1, .ok r.2)
  | .error e => (r.1, .error e)

/-- `LocalBlockchain::get_batch_history` (source lines 151–162): map each
recorded hash to the first block in `blocks` carrying it, dropping misses. -/
def LocalBlockchain.get_batch_history (lb : LocalBlockchain) (batch_id : String) :
    List Block :=
  match lb.batch_history batch_id with
  | some block_hashes =>
      block_hashes.filterMap (fun h => lb.blocks.find? (fun b => b.block_hash == h))
  | none => []

/-- One append call of a workload: the business inputs, the generated
block id and timestamp, and the outcome of the durable write. -/
structure AppendInput where
  batch_id : String
  farmer_did : String
  ipfs_cid : String
  transaction_data : String
  block_id : String
  timestamp : Nat
  saveRes : Except String Unit

/-- The ledger state after running a sequence of `add_fpo_purchase` calls
against a freshly created (`new`) ledger. -/
def stateOf (L : List AppendInput) : LocalBlockchain :=
  L.foldl (fun lb i =>
    (lb.add_fpo_purchase i.batch_id i.farmer_did i.ipfs_cid i.transaction_data
      i.block_id i.timestamp i.saveRes).1) LocalBlockchain.new

/-! Specification helpers used by the ledger invariant. -/

/-- The blocks filed under a key, in chain order. -/
def blocksFor (lb : LocalBlockchain) (k : String) : List Block :=
  lb.blocks.filter (fun b => b.batch_id == k)

/-- A list of blocks forms a hash-linked chain starting at version `v`
with predecessor digest `p`. -/
def chainList : Option Digest → Nat → List Block → Prop
  | _, _, [] => True
  | p, v, b :: bs =>
      b.previous_block_hash = p ∧ b.version = v ∧
      chainList (some b.block_hash) (v + 1) bs

/-- The stored hash of a block is the ideal hash of the block's own stored
fields together with the `ipfs_cid` recorded inside the digest. -/
def hashBinds (b : Block) : Prop :=
  b.block_hash = Digest.ofContent b.block_id b.previous_block_hash b.timestamp
    b.transaction_type b.batch_id b.farmer_did b.block_hash.cidOf b.version
    b.transaction_data

/-- Ledger invariant: the index agrees with the block list, every stored
hash binds its block's fields, and each key's blocks form a chain from
version 1 with no predecessor. -/
def LedgerInv (lb : LocalBlockchain) : Prop :=
  (∀ k, lb.batch_history k =
      (if (blocksFor lb k).isEmpty then none
       else some ((blocksFor lb k).map (fun b => b.block_hash)))) ∧
  (∀ b ∈ lb.blocks, hashBinds b) ∧
  (∀ k, chainList none 1 (blocksFor lb k))

/-!
### Workflow orchestrator model (`workflows.rs`, hash helpers in `chain.rs`)

Modelling conventions for this part:
* `keccak256` (alloy) is modelled as an ideal injective hash: the digest is
  identified with its preimage byte list; `FixedBytes<32>` is a byte-list
  wrapper (the fixed width is not load-bearing for any claim).
* The IPFS client and the authoritative blockchain client are external
  collaborators; they are modelled as oracles in an `Env` record, each call
  returning `Except String` of its result.  Every successful external call
  appends one event to the run's trace, which models the committed external
  side effects (content-store writes/uploads and ledger submissions).
* `anyhow`'s `.context(msg)` is modelled as returning `msg` as the error.
* `serde_json` serialization of evidence payloads is modelled as a plain
  field concatenation; no claim depends on the serialized format.  `f64`
  payload fields are modelled as `Int` (they are only serialized), and the
  float average `overall_score` computed inside the scoring payload is not
  modelled beyond its inputs.
* `tokio::time::sleep` (the commit-reveal delay) has no observable effect in
  the model and is dropped.
-/

/-- `FixedBytes<32>` modelled as its byte list. -/
structure B32 where
  data : List Nat
deriving DecidableEq, Repr

/-- `alloy::primitives::keccak256`, idealized as an injective hash: the
digest is identified with the hashed bytes. -/
def keccak256 (data : List Nat) : B32 := ⟨data⟩

/-- `str::as_bytes`, one abstract byte per character. -/
def strBytes (s : String) : List Nat := s.data.map Char.toNat

/-- `chain.rs` line 608: `hash_string(data) = keccak256(data.as_bytes())`. -/
def hash_string (s : String) : B32 := keccak256 (strBytes s)

/-- `chain.rs` line 612: `hash_bytes(data) = keccak256(data)`. -/
def hash_bytes (data : List Nat) : B32 := keccak256 data

/-- `chain.rs` lines 616–618:
`keccak256([reveal_hash.as_slice(), nonce.as_slice()].concat())`. -/
def generate_commit_hash (reveal_hash nonce : B32) : B32 :=
  keccak256 (([reveal_hash.data, nonce.data] : List (List Nat)).flatten)

/-- Rust `format!` zero-padding `{:0w}`: pad the decimal form of `n` with
leading zeros up to width `w`. -/
def padNum (w n : Nat) : String :=
  let s := toString n
  if s.length < w then String.mk (List.replicate (w - s.length) '0') ++ s else s

/-- Hex digit value, for `FixedBytes<32>` string parsing. -/
def hexVal (c : Char) : Option Nat :=
  if '0' ≤ c ∧ c ≤ '9' then some (c.toNat - '0'.toNat)
  else if 'a' ≤ c ∧ c ≤ 'f' then some (c.toNat - 'a'.toNat + 10)
  else if 'A' ≤ c ∧ c ≤ 'F' then some (c.toNat - 'A'.toNat + 10)
  else none

/-- Decode a hex string (as characters) two digits per byte. -/
def decodeHexPairs : List Char → Option (List Nat)
  | [] => some []
  | [_] => none
  | a :: b :: rest =>
    match hexVal a, hexVal b, decodeHexPairs rest with
    | some x, some y, some r => some ((16 * x + y) :: r)
    | _, _, _ => none

/-- `FixedBytes<32>::from_str` (`data.farmer_did.parse()`): an optional
`0x` prefix followed by exactly 64 hex digits (checked on the character
list). -/
def parseDid (s : String) : Option B32 :=
  let cs := if s.data.take 2 = ['0', 'x'] then s.data.drop 2 else s.data
  if cs.length = 64 then (decodeHexPairs cs).map B32.mk else none

/-- `FarmerData` (workflows.rs lines 68–77). -/
structure FarmerData where
  farmer_did : String
  crop_id : String
  name : String
  location : String
  land_area : String
  crops : List String
  contact : String

/-- `FpoPurchaseData` (lines 79–87); `f64` fields modelled as `Int`. -/
structure FpoPurchaseData where
  batch_id : String
  quantity_kg : Int
  quality_grade : String
  moisture_content : String
  purchase_price : Int
  purchase_date : String

/-- `WarehouseData` (lines 89–95). -/
structure WarehouseData where
  warehouse_id : String
  temperature_celsius : Int
  humidity_percent : Int
  storage_duration_days : Nat

/-- `Checkpoint` (lines 105–111). -/
structure Checkpoint where
  location : String
  latitude : Int
  longitude : Int
  timestamp : String

/-- `LogisticsData` (lines 97–103). -/
structure LogisticsData where
  shipment_id : String
  origin : String
  destination : String
  checkpoints : List Checkpoint

/-- `OutputProduct` (lines 120–125). -/
structure OutputProduct where
  product_id : String
  product_type : String
  quantity_kg : Int

/-- `ProcessingData` (lines 113–118). -/
structure ProcessingData where
  input_batch_id : String
  process_type : String
  yield_percentage : Int
  output_products : List OutputProduct

/-- `PackagingData` (lines 127–134); the source field `sku_prefix` is named
`sku_pfx` here. -/
structure PackagingData where
  sku_pfx : String
  package_type : String
  units_per_package : Nat
  total_packages : Nat
  expiry_months : Nat

/-- `AiScoringData` (lines 136–142); `f64` scores modelled as `Int`. -/
structure AiScoringData where
  quality_score : Int
  freshness_score : Int
  purity_score : Int
  model_version : String

/-- `CompleteWorkflowData` (lines 50–65). -/
structure CompleteWorkflowData where
  farmer : FarmerData
  fpo_purchase : FpoPurchaseData
  warehouse : WarehouseData
  logistics : LogisticsData
  processing : ProcessingData
  packaging : PackagingData
  ai_scoring : Option AiScoringData

/-- `WorkflowIpfsCids` (lines 163–172). -/
structure WorkflowIpfsCids where
  farmer_metadata : String
  fpo_metadata : String
  warehouse_metadata : String
  logistics_metadata : List String
  processing_metadata : String
  packaging_metadata : List String
  ai_metadata : Option String
deriving DecidableEq, Repr

/-- `WorkflowSummary` (lines 174–182). -/
structure WorkflowSummary where
  total_stages : Nat
  successful_stages : Nat
  total_transactions : Nat
  total_ipfs_uploads : Nat
  workflow_duration_secs : Nat
  trace_path : String
deriving DecidableEq, Repr

/-- `WorkflowResult` (lines 148–161). -/
structure WorkflowResult where
  farmer_tx : String
  fpo_tx : String
  warehouse_tx : String
  logistics_txs : List String
  processing_tx : String
  packaging_txs : List String
  ai_commit_tx : Option String
  ai_reveal_tx : Option String
  ipfs_cids : WorkflowIpfsCids
  final_skus : List String
  summary : WorkflowSummary
deriving DecidableEq, Repr

/-- `batch_folder` (lines 41–43). -/
def batch_folder (batch_id : String) : String := "data/" ++ batch_id

/-- Committed external side effects of one run: content-store operations
and authoritative-ledger submissions, in execution order. -/
inductive Ev : Type where
  | ipfsUploadJson (payload cid : String) : Ev
  | ipfsWriteFolder (folder filename payload : String) : Ev
  | ipfsUploadFolder (folder cid : String) : Ev
  | registerFarmer (did cropHash : B32) (cid tx : String) : Ev
  | fpoPurchase (batchHash did : B32) (cid tx : String) : Ev
  | warehouseUpdate (wid stateHash : B32) (cid tx : String) : Ev
  | logistics (sid loc : B32) (isDelivered : Bool) (cid tx : String) : Ev
  | processBatch (inHash tHash : B32) (outs : List B32) (cid tx : String) : Ev
  | createSku (sku parent merkle : B32) (cid tx : String) : Ev
  | commitScore (batch commitHash : B32) (tx : String) : Ev
  | revealScore (batch reveal nonce : B32) (cid tx : String) : Ev
deriving DecidableEq, Repr

/-- Oracles for the external collaborators (IPFS client, authoritative
blockchain client, clock, randomness).  Each oracle is a pure function of
the call's arguments; the theorems quantify over all oracles. -/
structure Env where
  uploadJson : String → Except String String
  writeJsonToFolder : String → String → String → Except String Unit
  uploadFolder : String → Except String String
  chainRegisterFarmer : B32 → B32 → String → Except String String
  chainFpoPurchase : B32 → B32 → String → Except String String
  chainUpdateWarehouse : B32 → B32 → String → Except String String
  chainRecordLogistics : B32 → B32 → Bool → String → Except String String
  chainProcessBatch : B32 → B32 → List B32 → String → Except String String
  chainCreateSku : B32 → B32 → B32 → String → Except String String
  chainCommitScore : B32 → B32 → Except String String
  chainRevealScore : B32 → B32 → B32 → String → Except String String
  now : String
  nonce : List Nat
  startSecs : Nat
  endSecs : Nat

/-- Serialized farmer metadata (lines 354–361); field concatenation stands
in for the JSON form. -/
def farmerMetadata (d : FarmerData) (now : String) : String :=
  "name=" ++ d.name ++ ";location=" ++ d.location ++ ";land_area=" ++
  d.land_area ++ ";crops=" ++ String.intercalate "," d.crops ++ ";contact=" ++
  d.contact ++ ";registration_timestamp=" ++ now

/-- Serialized FPO purchase metadata (lines 397–405). -/
def fpoMetadata (d : FpoPurchaseData) (now : String) : String :=
  "batch_id=" ++ d.batch_id ++ ";quantity_kg=" ++ toString d.quantity_kg ++
  ";quality_grade=" ++ d.quality_grade ++ ";moisture_content=" ++
  d.moisture_content ++ ";purchase_price=" ++ toString d.purchase_price ++
  ";purchase_date=" ++ d.purchase_date ++ ";verification_timestamp=" ++ now

/-- Serialized warehouse IoT payload (lines 441–449). -/
def warehousePayload (d : WarehouseData) (now : String) : String :=
  "warehouse_id=" ++ d.warehouse_id ++ ";temperature_celsius=" ++
  toString d.temperature_celsius ++ ";humidity_percent=" ++
  toString d.humidity_percent ++ ";storage_duration_days=" ++
  toString d.storage_duration_days ++ ";timestamp=" ++ now ++
  ";sensor_status=operational"

/-- Serialized GPS checkpoint payload (lines 484–496); uses the
checkpoint's own timestamp. -/
def gpsPayload (d : LogisticsData) (idx : Nat) (c : Checkpoint)
    (isDelivered : Bool) : String :=
  "shipment_id=" ++ d.shipment_id ++ ";checkpoint=" ++ toString (idx + 1) ++
  ";total_checkpoints=" ++ toString d.checkpoints.length ++ ";location=" ++
  c.location ++ ";latitude=" ++ toString c.latitude ++ ";longitude=" ++
  toString c.longitude ++ ";timestamp=" ++ c.timestamp ++ ";is_delivered=" ++
  toString isDelivered

/-- Serialized processing metadata (lines 530–536). -/
def processingMetadata (input_batch_id : String) (d : ProcessingData)
    (now : String) : String :=
  "input_batch_id=" ++ input_batch_id ++ ";process_type=" ++ d.process_type ++
  ";yield_percentage=" ++ toString d.yield_percentage ++ ";outputs=" ++
  String.intercalate ","
    (d.output_products.map (fun p =>
      p.product_id ++ ":" ++ p.product_type ++ ":" ++ toString p.quantity_kg)) ++
  ";processing_timestamp=" ++ now

/-- Serialized packaging metadata (lines 601–613); the expiry date
(`now + expiry_months * 30 days`) is carried symbolically. -/
def packagingMetadata (sku_id parent : String) (d : PackagingData)
    (unit_ids : List String) (now : String) : String :=
  "sku_id=" ++ sku_id ++ ";parent_batch=" ++ parent ++ ";package_type=" ++
  d.package_type ++ ";units_count=" ++ toString d.units_per_package ++
  ";unit_ids=" ++ String.intercalate "," unit_ids ++ ";expiry_date=" ++ now ++
  "+" ++ toString (d.expiry_months * 30) ++ "d;packaging_timestamp=" ++ now

/-- Serialized AI score payload (lines 673–681); the float average
`overall_score` is determined by the three scores and not modelled
separately. -/
def aiScorePayload (batch_id : String) (d : AiScoringData) (now : String) :
    String :=
  "batch_id=" ++ batch_id ++ ";quality_score=" ++ toString d.quality_score ++
  ";freshness_score=" ++ toString d.freshness_score ++ ";purity_score=" ++
  toString d.purity_score ++ ";model_version=" ++ d.model_version ++
  ";evaluation_timestamp=" ++ now

/-- `register_farmer` (lines 352–389): upload metadata, parse the DID, hash
the crop id, submit the registration. -/
def register_farmer (env : Env) (d : FarmerData) :
    List Ev × Except String (String × String) :=
  let pay := farmerMetadata d env.now
  match env.uploadJson pay with
  | .error _ => ([], .error "Failed to upload farmer metadata to IPFS")
  | .ok cid =>
    match parseDid d.farmer_did with
    | none => ([.ipfsUploadJson pay cid], .error "Invalid farmer DID format")
    | some did =>
      match env.chainRegisterFarmer did (hash_string d.crop_id) cid with
      | .error _ =>
          ([.ipfsUploadJson pay cid], .error "Blockchain registration failed")
      | .ok tx =>
          ([.ipfsUploadJson pay cid,
            .registerFarmer did (hash_string d.crop_id) cid tx], .ok (tx, cid))

/-- `record_fpo_purchase` (lines 391–437): write metadata into the batch
folder, upload the folder, parse the DID, submit the purchase. -/
def record_fpo_purchase (env : Env) (farmer_did : String) (d : FpoPurchaseData) :
    List Ev × Except String (String × String) :=
  let folder := batch_folder d.batch_id
  let pay := fpoMetadata d env.now
  match env.writeJsonToFolder folder "fpo_purchase.json" pay with
  | .error _ => ([], .error "Failed to write FPO metadata to batch folder")
  | .ok _ =>
    match env.uploadFolder folder with
    | .error _ =>
        ([.ipfsWriteFolder folder "fpo_purchase.json" pay],
         .error "Failed to upload batch folder to IPFS")
    | .ok cid =>
      match parseDid farmer_did with
      | none =>
          ([.ipfsWriteFolder folder "fpo_purchase.json" pay,
            .ipfsUploadFolder folder cid], .error "Invalid farmer DID")
      | some did =>
        match env.chainFpoPurchase (hash_string d.batch_id) did cid with
        | .error _ =>
            ([.ipfsWriteFolder folder "fpo_purchase.json" pay,
              .ipfsUploadFolder folder cid],
             .error "Blockchain FPO purchase failed")
        | .ok tx =>
            ([.ipfsWriteFolder folder "fpo_purchase.json" pay,
              .ipfsUploadFolder folder cid,
              .fpoPurchase (hash_string d.batch_id) did cid tx], .ok (tx, cid))

/-- `record_warehouse_storage` (lines 439–473): upload the IoT payload,
hash the serialized payload, submit the state update. -/
def record_warehouse_storage (env : Env) (d : WarehouseData) :
    List Ev × Except String (String × String) :=
  let pay := warehousePayload d env.now
  match env.uploadJson pay with
  | .error _ => ([], .error "Failed to upload warehouse data to IPFS")
  | .ok cid =>
    match env.chainUpdateWarehouse (hash_string d.warehouse_id)
        (hash_bytes (strBytes pay)) cid with
    | .error _ =>
        ([.ipfsUploadJson pay cid], .error "Blockchain warehouse update failed")
    | .ok tx =>
        ([.ipfsUploadJson pay cid,
          .warehouseUpdate (hash_string d.warehouse_id)
            (hash_bytes (strBytes pay)) cid tx], .ok (tx, cid))

/-- The loop body of `record_logistics_journey` (lines 477–521): per
checkpoint, `is_delivered = (idx == checkpoints.len() - 1)` (the `len - 1`
is only evaluated inside an iteration, so never on an empty list; `Nat`
truncated subtraction agrees with `usize` there), upload the GPS payload,
submit the checkpoint. -/
def journeyLoop (env : Env) (d : LogisticsData) :
    Nat → List Checkpoint → List Ev × Except String (List String × List String)
  | _, [] => ([], .ok ([], []))
  | idx, c :: rest =>
    let isDelivered := decide (idx = d.checkpoints.length - 1)
    let pay := gpsPayload d idx c isDelivered
    match env.uploadJson pay with
    | .error _ => ([], .error "Failed to upload logistics data to IPFS")
    | .ok cid =>
      match env.chainRecordLogistics (hash_string d.shipment_id)
          (hash_string c.location) isDelivered cid with
      | .error _ =>
          ([.ipfsUploadJson pay cid], .error "Blockchain logistics record failed")
      | .ok tx =>
        let r := journeyLoop env d (idx + 1) rest
        (.ipfsUploadJson pay cid ::
          .logistics (hash_string d.shipment_id) (hash_string c.location)
            isDelivered cid tx :: r.1,
         r.2.map (fun p => (tx :: p.1, cid :: p.2)))

/-- `record_logistics_journey` (lines 474–523). -/
def record_logistics_journey (env : Env) (d : LogisticsData) :
    List Ev × Except String (List String × List String) :=
  journeyLoop env d 0 d.checkpoints

/-- `process_batch` (lines 525–585): write metadata into the batch folder,
upload the folder, hash inputs/outputs, submit the transform; returns the
output product ids. -/
def process_batch (env : Env) (input_batch_id : String) (d : ProcessingData) :
    List Ev × Except String (String × String × List String) :=
  let folder := batch_folder input_batch_id
  let pay := processingMetadata input_batch_id d env.now
  match env.writeJsonToFolder folder "processing.json" pay with
  | .error _ => ([], .error "Failed to write processing metadata to batch folder")
  | .ok _ =>
    match env.uploadFolder folder with
    | .error _ =>
        ([.ipfsWriteFolder folder "processing.json" pay],
         .error "Failed to upload batch folder to IPFS")
    | .ok cid =>
      match env.chainProcessBatch (hash_string input_batch_id)
          (hash_bytes (strBytes pay))
          (d.output_products.map (fun p => hash_string p.product_id)) cid with
      | .error _ =>
          ([.ipfsWriteFolder folder "processing.json" pay,
            .ipfsUploadFolder folder cid], .error "Blockchain processing failed")
      | .ok tx =>
          ([.ipfsWriteFolder folder "processing.json" pay,
            .ipfsUploadFolder folder cid,
            .processBatch (hash_string input_batch_id)
              (hash_bytes (strBytes pay))
              (d.output_products.map (fun p => hash_string p.product_id)) cid tx],
           .ok (tx, cid, d.output_products.map (fun p => p.product_id)))

/-- The loop body of `create_retail_packages` (lines 594–662): for package
number `n`, `sku_id = format!("{}-{:04}", sku_prefix, n)`, unit ids
`format!("{}-U{:03}", sku_id, u)` for `u` in `1..=units_per_package`, the
Merkle-style root is the hash of the unit-id digests concatenated in order,
and one folder write + one folder upload + one SKU submission happen per
package. -/
def packagesLoop (env : Env) (parent : String) (d : PackagingData) :
    List Nat → List Ev × Except String (List String × List String × List String)
  | [] => ([], .ok ([], [], []))
  | n :: rest =>
    let sku_id := d.sku_pfx ++ "-" ++ padNum 4 n
    let unit_ids := (List.range d.units_per_package).map
      (fun j => sku_id ++ "-U" ++ padNum 3 (j + 1))
    let folder := batch_folder parent
    let filename := "packaging_" ++ sku_id ++ ".json"
    let pay := packagingMetadata sku_id parent d unit_ids env.now
    match env.writeJsonToFolder folder filename pay with
    | .error _ =>
        ([], .error "Failed to write packaging metadata to batch folder")
    | .ok _ =>
      match env.uploadFolder folder with
      | .error _ =>
          ([.ipfsWriteFolder folder filename pay],
           .error "Failed to upload batch folder to IPFS")
      | .ok cid =>
        let merkle_root := hash_bytes
          (((unit_ids.map hash_string).map B32.data).flatten)
        match env.chainCreateSku (hash_string sku_id) (hash_string parent)
            merkle_root cid with
        | .error _ =>
            ([.ipfsWriteFolder folder filename pay, .ipfsUploadFolder folder cid],
             .error "Blockchain SKU creation failed")
        | .ok tx =>
          let r := packagesLoop env parent d rest
          (.ipfsWriteFolder folder filename pay :: .ipfsUploadFolder folder cid ::
            .createSku (hash_string sku_id) (hash_string parent) merkle_root
              cid tx :: r.1,
           r.2.map (fun p => (tx :: p.1, cid :: p.2.1, sku_id :: p.2.2)))

/-- `create_retail_packages` (lines 587–665): iterate package numbers
`1..=total_packages`. -/
def create_retail_packages (env : Env) (parent : String) (d : PackagingData) :
    List Ev × Except String (List String × List String × List String) :=
  packagesLoop env parent d ((List.range d.total_packages).map (fun j => j + 1))

/-- `execute_ai_scoring` (lines 667–735): write the score payload to the
batch folder, upload the folder, `reveal = hash(score bytes)`, fresh random
`nonce`, `commit = generate_commit_hash(reveal, nonce)`, submit the commit,
wait the fixed delay, submit the reveal. -/
def execute_ai_scoring (env : Env) (batch_id : String) (d : AiScoringData) :
    List Ev × Except String (String × String × String) :=
  let folder := batch_folder batch_id
  let pay := aiScorePayload batch_id d env.now
  match env.writeJsonToFolder folder "ai_score.json" pay with
  | .error _ => ([], .error "Failed to write AI score to batch folder")
  | .ok _ =>
    match env.uploadFolder folder with
    | .error _ =>
        ([.ipfsWriteFolder folder "ai_score.json" pay],
         .error "Failed to upload batch folder to IPFS")
    | .ok cid =>
      let reveal := hash_bytes (strBytes pay)
      let nonce : B32 := ⟨env.nonce⟩
      let commitHash := generate_commit_hash reveal nonce
      match env.chainCommitScore (hash_string batch_id) commitHash with
      | .error _ =>
          ([.ipfsWriteFolder folder "ai_score.json" pay,
            .ipfsUploadFolder folder cid], .error "Blockchain AI commit failed")
      | .ok commit_tx =>
        match env.chainRevealScore (hash_string batch_id) reveal nonce cid with
        | .error _ =>
            ([.ipfsWriteFolder folder "ai_score.json" pay,
              .ipfsUploadFolder folder cid,
              .commitScore (hash_string batch_id) commitHash commit_tx],
             .error "Blockchain AI reveal failed")
        | .ok reveal_tx =>
            ([.ipfsWriteFolder folder "ai_score.json" pay,
              .ipfsUploadFolder folder cid,
              .commitScore (hash_string batch_id) commitHash commit_tx,
              .revealScore (hash_string batch_id) reveal nonce cid reveal_tx],
             .ok (commit_tx, reveal_tx, cid))

/-- The empty accumulator built at the start of `execute_full_workflow`
(lines 291–315 of the method body; `total_stages` is fixed at 7). -/
def emptyResult : WorkflowResult :=
  { farmer_tx := ""
    fpo_tx := ""
    warehouse_tx := ""
    logistics_txs := []
    processing_tx := ""
    packaging_txs := []
    ai_commit_tx := none
    ai_reveal_tx := none
    ipfs_cids := { farmer_metadata := ""
                   fpo_metadata := ""
                   warehouse_metadata := ""
                   logistics_metadata := []
                   processing_metadata := ""
                   packaging_metadata := []
                   ai_metadata := none }
    final_skus := []
    summary := { total_stages := 7
                 successful_stages := 0
                 total_transactions := 0
                 total_ipfs_uploads := 0
                 workflow_duration_secs := 0
                 trace_path := "" } }

/-- `execute_full_workflow` (lines 200–346): the seven-stage pipeline.
Each stage runs only after the previous one returned `Ok`; any error is
returned as-is, with the trace holding the side effects committed so far.
The `&output_batches[0]` indexing of line 291 panics in Rust when
processing produced no outputs; the panic is modelled as an error outcome.
The scoring stage (lines 299–310) records its transaction and content
identifiers and bumps the transaction/upload counters, but does not
increment `successful_stages`. -/
def execute_full_workflow (env : Env) (data : CompleteWorkflowData) :
    List Ev × Except String WorkflowResult :=
  let r0 := emptyResult
  match register_farmer env data.farmer with
  | (e1, .error e) => (e1, .error e)
  | (e1, .ok (farmer_tx, farmer_cid)) =>
    let r1 := { r0 with
                farmer_tx := farmer_tx
                ipfs_cids.farmer_metadata := farmer_cid
                summary.successful_stages := r0.summary.successful_stages + 1
                summary.total_transactions := r0.summary.total_transactions + 1
                summary.total_ipfs_uploads := r0.summary.total_ipfs_uploads + 1 }
    match record_fpo_purchase env data.farmer.farmer_did data.fpo_purchase with
    | (e2, .error e) => (e1 ++ e2, .error e)
    | (e2, .ok (fpo_tx, fpo_cid)) =>
      let r2 := { r1 with
                  fpo_tx := fpo_tx
                  ipfs_cids.fpo_metadata := fpo_cid
                  summary.successful_stages := r1.summary.successful_stages + 1
                  summary.total_transactions := r1.summary.total_transactions + 1
                  summary.total_ipfs_uploads := r1.summary.total_ipfs_uploads + 1 }
      match record_warehouse_storage env data.warehouse with
      | (e3, .error e) => (e1 ++ e2 ++ e3, .error e)
      | (e3, .ok (warehouse_tx, warehouse_cid)) =>
        let r3 := { r2 with
                    warehouse_tx := warehouse_tx
                    ipfs_cids.warehouse_metadata := warehouse_cid
                    summary.successful_stages := r2.summary.successful_stages + 1
                    summary.total_transactions := r2.summary.total_transactions + 1
                    summary.total_ipfs_uploads := r2.summary.total_ipfs_uploads + 1 }
        match record_logistics_journey env data.logistics with
        | (e4, .error e) => (e1 ++ e2 ++ e3 ++ e4, .error e)
        | (e4, .ok (logistics_txs, logistics_cids)) =>
          let r4 := { r3 with
                      logistics_txs := logistics_txs
                      ipfs_cids.logistics_metadata := logistics_cids
                      summary.successful_stages := r3.summary.successful_stages + 1
                      summary.total_transactions :=
                        r3.summary.total_transactions + logistics_txs.length
                      summary.total_ipfs_uploads :=
                        r3.summary.total_ipfs_uploads +
                          data.logistics.checkpoints.length }
          match process_batch env data.fpo_purchase.batch_id data.processing with
          | (e5, .error e) => (e1 ++ e2 ++ e3 ++ e4 ++ e5, .error e)
          | (e5, .ok (processing_tx, processing_cid, output_batches)) =>
            let r5 := { r4 with
                        processing_tx := processing_tx
                        ipfs_cids.processing_metadata := processing_cid
                        summary.successful_stages :=
                          r4.summary.successful_stages + 1
                        summary.total_transactions :=
                          r4.summary.total_transactions + 1
                        summary.total_ipfs_uploads :=
                          r4.summary.total_ipfs_uploads + 1 }
            match output_batches with
            | [] =>
                (e1 ++ e2 ++ e3 ++ e4 ++ e5,
                 .error "index out of bounds: the len is 0 but the index is 0")
            | b0 :: _ =>
              match create_retail_packages env b0 data.packaging with
              | (e6, .error e) => (e1 ++ e2 ++ e3 ++ e4 ++ e5 ++ e6, .error e)
              | (e6, .ok (packaging_txs, packaging_cids, skus)) =>
                let r6 := { r5 with
                            packaging_txs := packaging_txs
                            ipfs_cids.packaging_metadata := packaging_cids
                            final_skus := skus
                            summary.successful_stages :=
                              r5.summary.successful_stages + 1
                            summary.total_transactions :=
                              r5.summary.total_transactions +
                                data.packaging.total_packages
                            summary.total_ipfs_uploads :=
                              r5.summary.total_ipfs_uploads +
                                data.packaging.total_packages }
                match data.ai_scoring with
                | none =>
                    (e1 ++ e2 ++ e3 ++ e4 ++ e5 ++ e6,
                     .ok (finishResult env data r6))
                | some ai =>
                  match execute_ai_scoring env data.fpo_purchase.batch_id ai with
                  | (e7, .error e) =>
                      (e1 ++ e2 ++ e3 ++ e4 ++ e5 ++ e6 ++ e7, .error e)
                  | (e7, .ok (commit_tx, reveal_tx, ai_cid)) =>
                    let r7 := { r6 with
                                ai_commit_tx := some commit_tx
                                ai_reveal_tx := some reveal_tx
                                ipfs_cids.ai_metadata := some ai_cid
                                summary.total_transactions :=
                                  r6.summary.total_transactions + 2
                                summary.total_ipfs_uploads :=
                                  r6.summary.total_ipfs_uploads + 1 }
                    (e1 ++ e2 ++ e3 ++ e4 ++ e5 ++ e6 ++ e7,
                     .ok (finishResult env data r7))
where
  /-- Lines 317–337: fill in the run duration and the trace path. -/
  finishResult (env : Env) (data : CompleteWorkflowData) (r : WorkflowResult) :
      WorkflowResult :=
    { r with
      summary.workflow_duration_secs := env.endSecs - env.startSecs
      summary.trace_path := "Farmer(" ++ data.farmer.farmer_did ++ ") → FPO(" ++
        data.fpo_purchase.batch_id ++ ") → Warehouse(" ++
        data.warehouse.warehouse_id ++ ") → Logistics(" ++
        data.logistics.shipment_id ++ ") → Processing(" ++
        data.processing.input_batch_id ++ ") → Packaging(" ++
        toString r.final_skus.length ++ " SKUs)" }

/-! ### Trace projections and spec-side descriptions -/

/-- Stage tag of an authoritative-ledger submission event. -/
inductive STag : Type where
  | reg | fpo | wh | logi | proc | sku | cmt | rvl
deriving DecidableEq, Repr

/-- The ledger-submission tag of an event, `none` for content-store events. -/
def chainTag : Ev → Option STag
  | .registerFarmer _ _ _ _ => some .reg
  | .fpoPurchase _ _ _ _ => some .fpo
  | .warehouseUpdate _ _ _ _ => some .wh
  | .logistics _ _ _ _ _ => some .logi
  | .processBatch _ _ _ _ _ => some .proc
  | .createSku _ _ _ _ _ => some .sku
  | .commitScore _ _ _ => some .cmt
  | .revealScore _ _ _ _ _ => some .rvl
  | _ => none

/-- The ledger submissions of a trace, by stage tag, in order. -/
def chainTags (t : List Ev) : List STag := t.filterMap chainTag

/-- Location hash and delivery flag of a logistics submission. -/
def logisticsView : Ev → Option (B32 × Bool)
  | .logistics _ loc isDelivered _ _ => some (loc, isDelivered)
  | _ => none

/-- SKU hash, parent hash and Merkle-style aggregate of a SKU submission. -/
def skuView : Ev → Option (B32 × B32 × B32)
  | .createSku sku parent merkle _ _ => some (sku, parent, merkle)
  | _ => none

/-- Spec-side description of the pipeline order (claim C6): Registration,
Purchase, Storage, one Transport submission per checkpoint, Processing,
one Packaging submission per package, and the two Scoring submissions
exactly when scoring input is supplied. -/
def expectedTags (data : CompleteWorkflowData) : List STag :=
  [.reg, .fpo, .wh] ++ List.replicate data.logistics.checkpoints.length .logi ++
  [.proc] ++ List.replicate data.packaging.total_packages .sku ++
  (match data.ai_scoring with
   | some _ => [.cmt, .rvl]
   | none => [])

/-- Spec-side description of the delivery flags (claim C6): checkpoints in
input order, every checkpoint before the last submitted with
`is_delivered = false`, and the last one of a non-empty list with
`is_delivered = true`. -/
def expectedLogistics (d : LogisticsData) : List (B32 × Bool) :=
  d.checkpoints.dropLast.map (fun c => (hash_string c.location, false)) ++
  (d.checkpoints.getLast?.map (fun c => (hash_string c.location, true))).toList

/-- Spec-side unit identifiers of package `k` (claim C5):
`"{sku_prefix}-{k:04}-U{n:03}"` for `n` from 1 to `u`. -/
def specUnitIds (pfx : String) (k u : Nat) : List String :=
  (List.range u).map (fun j => pfx ++ "-" ++ padNum 4 k ++ "-U" ++ padNum 3 (j + 1))

/-- Spec-side Merkle-style aggregate (claim C5): hash of the unit-id
digests concatenated in generation order. -/
def specAggregate (ids : List String) : B32 :=
  hash_bytes ((ids.map (fun i => (hash_string i).data)).flatten)

/-- The context messages a failed run can return, each tagged with the
stage(s) whose external calls carry it.  The batch-folder upload message is
shared by the Purchase, Processing, Packaging and Scoring stages. -/
def workflowErrorMessages : List String :=
  ["Failed to upload farmer metadata to IPFS",
   "Invalid farmer DID format",
   "Blockchain registration failed",
   "Failed to write FPO metadata to batch folder",
   "Invalid farmer DID",
   "Blockchain FPO purchase failed",
   "Failed to upload warehouse data to IPFS",
   "Blockchain warehouse update failed",
   "Failed to upload logistics data to IPFS",
   "Blockchain logistics record failed",
   "Failed to write processing metadata to batch folder",
   "Blockchain processing failed",
   "index out of bounds: the len is 0 but the index is 0",
   "Failed to write packaging metadata to batch folder",
   "Blockchain SKU creation failed",
   "Failed to write AI score to batch folder",
   "Blockchain AI commit failed",
   "Blockchain AI reveal failed",
   "Failed to upload batch folder to IPFS"]

/-- Whether an `Except` result is a success. -/
def isOkE {ε α : Type} : Except ε α → Bool
  | .ok _ => true
  | .error _ => false

/-- The location hashes and delivery flags the journey loop submits from
global index `idx` on, with `total` checkpoints overall. -/
def flagsFrom (total : Nat) : Nat → List Checkpoint → List (B32 × Bool)
  | _, [] => []
  | idx, c :: rest =>
      (hash_string c.location, decide (idx = total - 1)) :: flagsFrom total (idx + 1) rest

/-- An environment in which every external call succeeds. -/
def envAllOk : Env :=
  { uploadJson := fun _ => .ok "QmJson"
    writeJsonToFolder := fun _ _ _ => .ok ()
    uploadFolder := fun _ => .ok "QmFolder"
    chainRegisterFarmer := fun _ _ _ => .ok "0xtx1"
    chainFpoPurchase := fun _ _ _ => .ok "0xtx2"
    chainUpdateWarehouse := fun _ _ _ => .ok "0xtx3"
    chainRecordLogistics := fun _ _ _ _ => .ok "0xtx4"
    chainProcessBatch := fun _ _ _ _ => .ok "0xtx5"
    chainCreateSku := fun _ _ _ _ => .ok "0xtx6"
    chainCommitScore := fun _ _ => .ok "0xtx7"
    chainRevealScore := fun _ _ _ _ => .ok "0xtx8"
    now := "2025-01-01T00:00:00Z"
    nonce := [1]
    startSecs := 10
    endSecs := 12 }

/-- `envAllOk` except that every logistics submission is rejected. -/
def envTransportFail : Env :=
  { envAllOk with chainRecordLogistics := fun _ _ _ _ => .error "revert" }

/-- `envAllOk` except that uploading the evidence folder of batch
`BATCH-1` fails (hit first by the Purchase stage). -/
def envBatchFolderFail : Env :=
  { envAllOk with
    uploadFolder := fun f =>
      if f = "data/BATCH-1" then .error "ipfs down" else .ok "QmFolder" }

/-- `envAllOk` except that uploading the evidence folder of the output
product `PROD-1` fails (hit only by the Packaging stage). -/
def envProductFolderFail : Env :=
  { envAllOk with
    uploadFolder := fun f =>
      if f = "data/PROD-1" then .error "ipfs down" else .ok "QmFolder" }

/-- A complete workflow input with a valid farmer DID, one checkpoint, one
output product, three packages of two units, and scoring supplied. -/
def demoData : CompleteWorkflowData :=
  { farmer :=
      { farmer_did :=
          "0xaaaaaaaaaaaaaaaaaaaaaaaaaaaaaaaaaaaaaaaaaaaaaaaaaaaaaaaaaaaaaaaa"
        crop_id := "CROP-1"
        name := "N"
        location := "L"
        land_area := "2ha"
        crops := ["rice"]
        contact := "c" }
    fpo_purchase :=
      { batch_id := "BATCH-1"
        quantity_kg := 100
        quality_grade := "A"
        moisture_content := "12"
        purchase_price := 5
        purchase_date := "2025-01-01" }
    warehouse :=
      { warehouse_id := "WH-1"
        temperature_celsius := 20
        humidity_percent := 40
        storage_duration_days := 3 }
    logistics :=
      { shipment_id := "SHIP-1"
        origin := "O"
        destination := "D"
        checkpoints := [{ location := "CP-1", latitude := 1, longitude := 2,
                          timestamp := "t1" }] }
    processing :=
      { input_batch_id := "BATCH-1"
        process_type := "milling"
        yield_percentage := 90
        output_products := [{ product_id := "PROD-1", product_type := "flour",
                              quantity_kg := 90 }] }
    packaging :=
      { sku_pfx := "SKU"
        package_type := "box"
        units_per_package := 2
        total_packages := 3
        expiry_months := 6 }
    ai_scoring := some { quality_score := 9, freshness_score := 8,
                         purity_score := 9, model_version := "v1" } }

/-- Two demo appends for the same batch key, used to instantiate C1. -/
def demoAppends : List AppendInput :=
  [⟨"B-1", "F", "c1", "d1", "BLK_1", 0, .ok ()⟩,
   ⟨"B-1", "F", "c2", "d2", "BLK_2", 1, .ok ()⟩]

/-- The second block created by `demoAppends`. -/
def demoBlock2 : Block :=
  { block_id := "BLK_2",
    previous_block_hash := some (.first "BLK_1" 0 "fpo_purchase" "B-1" "F" "c1" 1 "d1"),
    timestamp := 1, transaction_type := "fpo_purchase", batch_id := "B-1",
    farmer_did := "F", transaction_data := "d2",
    block_hash := .chained "BLK_2"
      (.first "BLK_1" 0 "fpo_purchase" "B-1" "F" "c1" 1 "d1")
      1 "fpo_purchase" "B-1" "F" "c2" 2 "d2",
    version := 2 }

/-- First block of a single append that used ipfs_cid "cidA". -/
def c2BlockA : Block :=
  { block_id := "BLK_1", previous_block_hash := none, timestamp := 0,
    transaction_type := "fpo_purchase", batch_id := "B-1", farmer_did := "F",
    transaction_data := "d",
    block_hash := .first "BLK_1" 0 "fpo_purchase" "B-1" "F" "cidA" 1 "d",
    version := 1 }

/-- First block of a single append that used ipfs_cid "cidB". -/
def c2BlockB : Block :=
  { block_id := "BLK_1", previous_block_hash := none, timestamp := 0,
    transaction_type := "fpo_purchase", batch_id := "B-1", farmer_did := "F",
    transaction_data := "d",
    block_hash := .first "BLK_1" 0 "fpo_purchase" "B-1" "F" "cidB" 1 "d",
    version := 1 }

/-! ### Ledger lemmas -/

/-- The hash the chain expects for the next block after `bs`: the last
block's hash, or `p` when `bs` is empty. -/
def lastHashOr (p : Option Digest) (bs : List Block) : Option Digest :=
  match bs.getLast? with
  | some x => some x.block_hash
  | none => p

theorem lastHashOr_cons (p : Option Digest) (x : Block) (xs : List Block) :
    lastHashOr p (x :: xs) = lastHashOr (some x.block_hash) xs := by
  cases xs with
  | nil => simp [lastHashOr]
  | cons y ys =>
    unfold lastHashOr
    rw [List.getLast?_cons_cons]
    rcases h : (y :: ys).getLast? with _ | z
    · rw [List.getLast?_eq_none_iff] at h
      cases h
    · rfl

theorem Digest.cidOf_ofContent (bid : String) (p : Option Digest) (ts : Nat)
    (tt bk f c : String) (v : Nat) (d : String) :
    (Digest.ofContent bid p ts tt bk f c v d).cidOf = c := by
  cases p <;> rfl

theorem Digest.ofContent_inj {bid bid' : String} {p p' : Option Digest}
    {ts ts' : Nat} {tt tt' bk bk' f f' c c' : String} {v v' : Nat}
    {d d' : String}
    (h : Digest.ofContent bid p ts tt bk f c v d =
      Digest.ofContent bid' p' ts' tt' bk' f' c' v' d') :
    bid = bid' ∧ p = p' ∧ ts = ts' ∧ tt = tt' ∧ bk = bk' ∧ f = f' ∧ c = c' ∧
      v = v' ∧ d = d' := by
  cases p <;> cases p' <;> simp_all [Digest.ofContent]

theorem block_hash_inj {x y : Block} (hx : hashBinds x) (hy : hashBinds y)
    (h : x.block_hash = y.block_hash) : x = y := by
  have h2 : Digest.ofContent x.block_id x.previous_block_hash x.timestamp
      x.transaction_type x.batch_id x.farmer_did x.block_hash.cidOf x.version
      x.transaction_data =
      Digest.ofContent y.block_id y.previous_block_hash y.timestamp
      y.transaction_type y.batch_id y.farmer_did y.block_hash.cidOf y.version
      y.transaction_data := by
    rw [← hx, ← hy]; exact h
  obtain ⟨e1, e2, e3, e4, e5, e6, e7, e8, e9⟩ := Digest.ofContent_inj h2
  cases x; cases y; simp_all

theorem find?_of_unique (l : List Block) (bf : Block) (hmem : bf ∈ l)
    (huniq : ∀ x ∈ l, x.block_hash = bf.block_hash → x = bf) :
    l.find? (fun b => b.block_hash == bf.block_hash) = some bf := by
  induction l with
  | nil => cases hmem
  | cons x xs ih =>
    by_cases hx : x.block_hash = bf.block_hash
    · have hxe : x = bf := huniq x (by simp) hx
      subst hxe
      simp [List.find?]
    · have hne : (x.block_hash == bf.block_hash) = false := by
        simpa using hx
      have hmem' : bf ∈ xs := by
        rcases List.mem_cons.mp hmem with h | h
        · exact absurd (h ▸ rfl) hx
        · exact h
      simp only [List.find?, hne]
      exact ih hmem' (fun z hz => huniq z (List.mem_cons_of_mem _ hz))

theorem filterMap_find_self {lb : LocalBlockchain} (h2 : ∀ b ∈ lb.blocks, hashBinds b)
    (bs : List Block) (hsub : ∀ b ∈ bs, b ∈ lb.blocks) :
    (bs.map (fun b => b.block_hash)).filterMap
      (fun h => lb.blocks.find? (fun b => b.block_hash == h)) = bs := by
  induction bs with
  | nil => simp
  | cons x xs ih =>
    have hx : lb.blocks.find? (fun b => b.block_hash == x.block_hash) = some x := by
      apply find?_of_unique _ _ (hsub x (by simp))
      intro z hz he
      exact block_hash_inj (h2 z hz) (h2 x (hsub x (by simp))) he
    simp only [List.map_cons, List.filterMap_cons, hx]
    exact congrArg _ (ih (fun b hb => hsub b (List.mem_cons_of_mem _ hb)))

theorem get_batch_history_eq (lb : LocalBlockchain) (hinv : LedgerInv lb)
    (k : String) : lb.get_batch_history k = blocksFor lb k := by
  obtain ⟨h1, h2, _⟩ := hinv
  unfold LocalBlockchain.get_batch_history
  rw [h1 k]
  by_cases he : (blocksFor lb k).isEmpty
  · simp only [he, if_pos]
    rw [List.isEmpty_iff] at he
    simp [he]
  · simp only [he, if_neg, Bool.false_eq_true, not_false_iff]
    exact filterMap_find_self h2 (blocksFor lb k)
      (fun b hb => List.mem_of_mem_filter hb)

theorem chainList_append {p : Option Digest} {v : Nat} {bs : List Block} {b : Block}
    (hc : chainList p v bs) (hprev : b.previous_block_hash = lastHashOr p bs)
    (hver : b.version = v + bs.length) : chainList p v (bs ++ [b]) := by
  induction bs generalizing p v with
  | nil =>
    simp only [lastHashOr] at hprev
    exact ⟨hprev, by simpa using hver, trivial⟩
  | cons x xs ih =>
    obtain ⟨hp, hv, hrest⟩ := hc
    refine ⟨hp, hv, ?_⟩
    apply ih hrest
    · rw [hprev, lastHashOr_cons]
    · simp only [List.length_cons] at hver
      omega

theorem chainList_getElem? {p : Option Digest} {v : Nat} {bs : List Block}
    (hc : chainList p v bs) :
    ∀ (i : Nat) (b : Block), bs[i]? = some b →
      b.version = v + i ∧
      b.previous_block_hash =
        (if i = 0 then p else (bs[i - 1]?).map (fun x => x.block_hash)) := by
  induction bs generalizing p v with
  | nil => intro i b hget; simp at hget
  | cons x xs ih =>
    intro i b hget
    obtain ⟨hp, hv, hrest⟩ := hc
    match i with
    | 0 =>
      simp only [List.getElem?_cons_zero, Option.some.injEq] at hget
      subst hget
      simp [hp, hv]
    | Nat.succ j =>
      simp only [List.getElem?_cons_succ] at hget
      obtain ⟨hver, hprev⟩ := ih hrest j b hget
      constructor
      · omega
      · match j with
        | 0 => simpa using hprev
        | Nat.succ jj => simpa using hprev

theorem blocksFor_addCore (lb : LocalBlockchain) (batch_id farmer_did ipfs_cid
    transaction_data block_id : String) (timestamp : Nat) (k : String) :
    blocksFor (lb.addCore batch_id farmer_did ipfs_cid transaction_data block_id
      timestamp).1 k =
    blocksFor lb k ++
      (if batch_id = k then
        [lb.newBlockOf batch_id farmer_did ipfs_cid transaction_data block_id
          timestamp]
       else []) := by
  simp only [LocalBlockchain.addCore, blocksFor, List.filter_append]
  by_cases h : batch_id = k
  · have hbe : (batch_id == k) = true := by simpa using h
    simp [h, List.filter, LocalBlockchain.newBlockOf, hbe]
  · have hbe : (batch_id == k) = false := by simpa using h
    simp [h, List.filter, LocalBlockchain.newBlockOf, hbe]

theorem nextVersion_eq (lb : LocalBlockchain)
    (h1 : ∀ k, lb.batch_history k =
      (if (blocksFor lb k).isEmpty then none
       else some ((blocksFor lb k).map (fun b => b.block_hash))))
    (k : String) : lb.nextVersion k = (blocksFor lb k).length + 1 := by
  unfold LocalBlockchain.nextVersion
  rw [h1 k]
  by_cases he : (blocksFor lb k).isEmpty
  · rw [List.isEmpty_iff] at he
    simp [he]
  · simp [he]

theorem prevHash_eq (lb : LocalBlockchain)
    (h1 : ∀ k, lb.batch_history k =
      (if (blocksFor lb k).isEmpty then none
       else some ((blocksFor lb k).map (fun b => b.block_hash))))
    (k : String) : lb.prevHash k = lastHashOr none (blocksFor lb k) := by
  unfold LocalBlockchain.prevHash
  rw [h1 k]
  by_cases he : (blocksFor lb k).isEmpty
  · rw [List.isEmpty_iff] at he
    simp [he, lastHashOr]
  · simp only [he, Bool.false_eq_true, if_neg, not_false_iff]
    rw [List.getLast?_map, lastHashOr]
    rcases hlast : (blocksFor lb k).getLast? with _ | x
    · rw [List.getLast?_eq_none_iff] at hlast
      simp [hlast] at he
    · simp

theorem getD_batch_history (lb : LocalBlockchain)
    (h1 : ∀ k, lb.batch_history k =
      (if (blocksFor lb k).isEmpty then none
       else some ((blocksFor lb k).map (fun b => b.block_hash))))
    (k : String) :
    (lb.batch_history k).getD [] = (blocksFor lb k).map (fun b => b.block_hash) := by
  rw [h1 k]
  by_cases he : (blocksFor lb k).isEmpty
  · rw [List.isEmpty_iff] at he
    simp [he]
  · simp [he]

theorem LedgerInv_new : LedgerInv LocalBlockchain.new := by
  refine ⟨fun k => ?_, fun b hb => ?_, fun k => ?_⟩
  · simp [LocalBlockchain.new, blocksFor]
  · simp [LocalBlockchain.new] at hb
  · simp [LocalBlockchain.new, blocksFor, chainList]

theorem LedgerInv_addCore (lb : LocalBlockchain) (hinv : LedgerInv lb)
    (batch_id farmer_did ipfs_cid transaction_data block_id : String)
    (timestamp : Nat) :
    LedgerInv (lb.addCore batch_id farmer_did ipfs_cid transaction_data block_id
      timestamp).1 := by
  obtain ⟨h1, h2, h3⟩ := hinv
  have hver := nextVersion_eq lb h1 batch_id
  have hprev := prevHash_eq lb h1 batch_id
  have hblocksFor := blocksFor_addCore lb batch_id farmer_did ipfs_cid
    transaction_data block_id timestamp
  refine ⟨fun k => ?_, fun b hb => ?_, fun k => ?_⟩
  · -- index agrees with block list
    rw [hblocksFor k]
    by_cases hk : batch_id = k
    · subst hk
      simp only [if_pos rfl]
      show (if batch_id = batch_id then
          some (((lb.batch_history batch_id).getD []) ++ _) else _) = _
      rw [if_pos rfl, getD_batch_history lb h1 batch_id]
      simp [LocalBlockchain.newBlockOf]
    · simp only [if_neg hk, List.append_nil]
      show (if k = batch_id then _ else lb.batch_history k) = _
      rw [if_neg (fun h => hk h.symm)]
      exact h1 k
  · -- every stored hash binds its block's fields
    simp only [LocalBlockchain.addCore, List.mem_append, List.mem_singleton] at hb
    rcases hb with hb | hb
    · exact h2 b hb
    · subst hb
      simp [hashBinds, LocalBlockchain.newBlockOf, Digest.cidOf_ofContent]
  · -- chain invariant per key
    rw [hblocksFor k]
    by_cases hk : batch_id = k
    · subst hk
      simp only [if_pos rfl]
      apply chainList_append (h3 batch_id)
      · simp only [LocalBlockchain.newBlockOf]
        rw [hprev]
      · simp only [LocalBlockchain.newBlockOf]
        rw [hver]
        omega
    · simp only [if_neg hk, List.append_nil]
      exact h3 k

theorem add_fpo_purchase_fst (lb : LocalBlockchain) (batch_id farmer_did ipfs_cid
    transaction_data block_id : String) (timestamp : Nat)
    (saveRes : Except String Unit) :
    (lb.add_fpo_purchase batch_id farmer_did ipfs_cid transaction_data block_id
      timestamp saveRes).1 =
    (lb.addCore batch_id farmer_did ipfs_cid transaction_data block_id
      timestamp).1 := by
  cases saveRes <;> rfl

theorem LedgerInv_stateOf (L : List AppendInput) : LedgerInv (stateOf L) := by
  suffices h : ∀ (L : List AppendInput) (lb : LocalBlockchain), LedgerInv lb →
      LedgerInv (L.foldl (fun lb i =>
        (lb.add_fpo_purchase i.batch_id i.farmer_did i.ipfs_cid i.transaction_data
          i.block_id i.timestamp i.saveRes).1) lb) by
    exact h L LocalBlockchain.new LedgerInv_new
  intro L
  induction L with
  | nil => intro lb h; exact h
  | cons i L ih =>
    intro lb h
    simp only [List.foldl_cons]
    apply ih
    rw [add_fpo_purchase_fst]
    exact LedgerInv_addCore lb h i.batch_id i.farmer_did i.ipfs_cid
      i.transaction_data i.block_id i.timestamp

/-! ### Ledger claim theorems -/

/-- C1: for every batch key, after any sequence of `add_fpo_purchase` calls
on the local ledger, `get_batch_history` returns the blocks for that key
with strictly increasing version starting at 1 (the block at index `i` has
version `i + 1`), and each block's `previous_block_hash` equals the
`block_hash` of the preceding returned block (`none` for the first). -/
theorem C1_batch_history_chain (L : List AppendInput) (k : String) (i : Nat)
    (b : Block) (hget : ((stateOf L).get_batch_history k)[i]? = some b) :
    b.version = i + 1 ∧
    b.previous_block_hash =
      (if i = 0 then none
       else (((stateOf L).get_batch_history k)[i - 1]?).map
         (fun x => x.block_hash)) := by
  have hinv := LedgerInv_stateOf L
  have heq := get_batch_history_eq _ hinv k
  rw [heq] at hget ⊢
  obtain ⟨_, _, h3⟩ := hinv
  obtain ⟨hv, hp⟩ := chainList_getElem? (h3 k) i b hget
  exact ⟨by omega, hp⟩

/-- Witness for C1 at a concrete two-append workload. -/
theorem C1_batch_history_chain_witness :
    ∃ b : Block, ((stateOf demoAppends).get_batch_history "B-1")[1]? = some b ∧
      b.version = 1 + 1 ∧
      b.previous_block_hash =
        (if (1 : Nat) = 0 then none
         else (((stateOf demoAppends).get_batch_history "B-1")[0]?).map
           (fun x => x.block_hash)) := by
  have hget : ((stateOf demoAppends).get_batch_history "B-1")[1]? = some demoBlock2 := by
    decide
  exact ⟨demoBlock2, hget, C1_batch_history_chain demoAppends "B-1" 1 demoBlock2 hget⟩

/-- C9: the receipt of `add_fpo_purchase` has `version = n + 1` where `n` is
the number of hashes already indexed for the key, `is_update` is true
exactly when `n ≠ 0` (so false with version 1 when the key had no prior
entry), and `is_update` holds iff `version > 1`; a successful save returns
exactly this receipt. -/
theorem C9_receipt_version_update (lb : LocalBlockchain) (batch_id farmer_did
    ipfs_cid transaction_data block_id : String) (timestamp : Nat) :
    (lb.addCore batch_id farmer_did ipfs_cid transaction_data block_id
        timestamp).2.version = ((lb.batch_history batch_id).getD []).length + 1 ∧
    (lb.addCore batch_id farmer_did ipfs_cid transaction_data block_id
        timestamp).2.is_update =
      (((lb.batch_history batch_id).getD []).length != 0) ∧
    ((lb.addCore batch_id farmer_did ipfs_cid transaction_data block_id
        timestamp).2.is_update = true ↔
      1 < (lb.addCore batch_id farmer_did ipfs_cid transaction_data block_id
        timestamp).2.version) ∧
    lb.add_fpo_purchase batch_id farmer_did ipfs_cid transaction_data block_id
        timestamp (.ok ()) =
      ((lb.addCore batch_id farmer_did ipfs_cid transaction_data block_id
          timestamp).1,
       .ok (lb.addCore batch_id farmer_did ipfs_cid transaction_data block_id
          timestamp).2) := by
  refine ⟨?_, ?_, ?_, rfl⟩ <;>
    rcases h : lb.batch_history batch_id with _ | bs
  · simp [LocalBlockchain.addCore, LocalBlockchain.nextVersion, h]
  · simp [LocalBlockchain.addCore, LocalBlockchain.nextVersion, h]
  · simp [LocalBlockchain.addCore, LocalBlockchain.prevHash, h]
  · rcases bs with _ | ⟨x, xs⟩
    · simp [LocalBlockchain.addCore, LocalBlockchain.prevHash, h]
    · have : (x :: xs).getLast?.isSome = true := by
        rw [Option.isSome_iff_ne_none]
        simp [List.getLast?_eq_none_iff]
      simp [LocalBlockchain.addCore, LocalBlockchain.prevHash, h, this]
  · simp [LocalBlockchain.addCore, LocalBlockchain.nextVersion,
      LocalBlockchain.prevHash, h]
  · rcases bs with _ | ⟨x, xs⟩
    · simp [LocalBlockchain.addCore, LocalBlockchain.nextVersion,
        LocalBlockchain.prevHash, h]
    · have : (x :: xs).getLast?.isSome = true := by
        rw [Option.isSome_iff_ne_none]
        simp [List.getLast?_eq_none_iff]
      simp [LocalBlockchain.addCore, LocalBlockchain.nextVersion,
        LocalBlockchain.prevHash, h, this]

/-- C3 exhibit: on a failed durable write, `add_fpo_purchase` returns the
error, yet the in-memory state retains the appended block in both the block
list and the batch index — the rollback the specification requires is
absent from the code. -/
theorem C3_no_rollback_exhibit :
    (LocalBlockchain.new.add_fpo_purchase "B-1" "F" "cid" "d" "BLK_1" 0
      (.error "disk write failed")).2 = .error "disk write failed" ∧
    (LocalBlockchain.new.add_fpo_purchase "B-1" "F" "cid" "d" "BLK_1" 0
      (.error "disk write failed")).1.blocks.length = 1 ∧
    (LocalBlockchain.new.add_fpo_purchase "B-1" "F" "cid" "d" "BLK_1" 0
      (.error "disk write failed")).1.batch_history "B-1" =
      some [.first "BLK_1" 0 "fpo_purchase" "B-1" "F" "cid" 1 "d"] := by
  refine ⟨rfl, rfl, ?_⟩
  simp [LocalBlockchain.add_fpo_purchase, LocalBlockchain.addCore,
    LocalBlockchain.new, LocalBlockchain.newBlockOf, LocalBlockchain.prevHash,
    LocalBlockchain.nextVersion, Digest.ofContent]

/-- C2 counterexample: no function of the stored fields alone (block_id,
previous_block_hash, timestamp, transaction_type, batch_id, farmer_did,
version, transaction_data) reproduces `block_hash` for every stored block:
two appends identical except for the `ipfs_cid` — which is hashed but not
stored in the block — produce blocks with equal stored fields and different
hashes. -/
theorem C2_counterexample :
    ¬ ∃ f : String → Option Digest → Nat → String → String → String → String →
        Nat → Digest,
      ∀ (L : List AppendInput), ∀ b ∈ (stateOf L).blocks,
        f b.block_id b.previous_block_hash b.timestamp b.transaction_type
          b.batch_id b.farmer_did b.transaction_data b.version = b.block_hash := by
  rintro ⟨f, hf⟩
  have hmemA : c2BlockA ∈ (stateOf [⟨"B-1", "F", "cidA", "d", "BLK_1", 0, .ok ()⟩]).blocks := by
    decide
  have hmemB : c2BlockB ∈ (stateOf [⟨"B-1", "F", "cidB", "d", "BLK_1", 0, .ok ()⟩]).blocks := by
    decide
  have hA := hf [⟨"B-1", "F", "cidA", "d", "BLK_1", 0, .ok ()⟩] c2BlockA hmemA
  have hB := hf [⟨"B-1", "F", "cidB", "d", "BLK_1", 0, .ok ()⟩] c2BlockB hmemB
  simp only [c2BlockA] at hA
  simp only [c2BlockB] at hB
  exact absurd (hA.symm.trans hB) (by decide)

/-- C2 amended: the stored `block_hash` is the hash of the block's stored
fields together with the `ipfs_cid` supplied at append time (recoverable
from the digest): recomputing the hash from the stored fields plus that
cid reproduces the stored value for every block in the ledger. -/
theorem C2_amended_hash_binds (L : List AppendInput) (b : Block)
    (hb : b ∈ (stateOf L).blocks) :
    b.block_hash = Digest.ofContent b.block_id b.previous_block_hash b.timestamp
      b.transaction_type b.batch_id b.farmer_did b.block_hash.cidOf b.version
      b.transaction_data :=
  (LedgerInv_stateOf L).2.1 b hb

/-- Witness for the amended C2 at a concrete single-append workload. -/
theorem C2_amended_hash_binds_witness :
    c2BlockA ∈ (stateOf [⟨"B-1", "F", "cidA", "d", "BLK_1", 0, .ok ()⟩]).blocks ∧
    c2BlockA.block_hash = Digest.ofContent c2BlockA.block_id
      c2BlockA.previous_block_hash c2BlockA.timestamp c2BlockA.transaction_type
      c2BlockA.batch_id c2BlockA.farmer_did c2BlockA.block_hash.cidOf
      c2BlockA.version c2BlockA.transaction_data :=
  ⟨by decide,
   C2_amended_hash_binds [⟨"B-1", "F", "cidA", "d", "BLK_1", 0, .ok ()⟩]
     c2BlockA (by decide)⟩

/-! ### Workflow lemmas -/

theorem register_farmer_ok (env : Env) (d : FarmerData) (tx cid : String)
    (h : (register_farmer env d).2 = .ok (tx, cid)) :
    ∃ did, parseDid d.farmer_did = some did ∧
      (register_farmer env d).1 =
        [.ipfsUploadJson (farmerMetadata d env.now) cid,
         .registerFarmer did (hash_string d.crop_id) cid tx] := by
  unfold register_farmer at h ⊢
  rcases hu : env.uploadJson (farmerMetadata d env.now) with e | cid2
  · simp [hu] at h
  · rcases hp : parseDid d.farmer_did with _ | did
    · simp [hu, hp] at h
    · rcases hc : env.chainRegisterFarmer did (hash_string d.crop_id) cid2 with e | tx2
      · simp [hu, hp, hc] at h
      · simp only [hu, hp, hc] at h ⊢
        obtain ⟨h1, h2⟩ := Prod.mk.injEq .. ▸ (Except.ok.injEq .. ▸ h)
        exact ⟨did, rfl, by simp [h1, h2]⟩

theorem register_farmer_err (env : Env) (d : FarmerData) (e : String)
    (h : (register_farmer env d).2 = .error e) :
    e ∈ ["Failed to upload farmer metadata to IPFS", "Invalid farmer DID format",
         "Blockchain registration failed"] ∧
    chainTags (register_farmer env d).1 = [] := by
  unfold register_farmer at h ⊢
  rcases hu : env.uploadJson (farmerMetadata d env.now) with e2 | cid2
  · simp [hu] at h ⊢
    simp [h, chainTags]
  · rcases hp : parseDid d.farmer_did with _ | did
    · simp [hu, hp] at h ⊢
      simp [h, chainTags, chainTag]
    · rcases hc : env.chainRegisterFarmer did (hash_string d.crop_id) cid2 with e2 | tx2
      · simp [hu, hp, hc] at h ⊢
        simp [h, chainTags, chainTag]
      · simp [hu, hp, hc] at h

theorem record_fpo_purchase_ok (env : Env) (fdid : String) (d : FpoPurchaseData)
    (tx cid : String) (h : (record_fpo_purchase env fdid d).2 = .ok (tx, cid)) :
    ∃ did, parseDid fdid = some did ∧
      (record_fpo_purchase env fdid d).1 =
        [.ipfsWriteFolder (batch_folder d.batch_id) "fpo_purchase.json"
           (fpoMetadata d env.now),
         .ipfsUploadFolder (batch_folder d.batch_id) cid,
         .fpoPurchase (hash_string d.batch_id) did cid tx] := by
  unfold record_fpo_purchase at h ⊢
  rcases hw : env.writeJsonToFolder (batch_folder d.batch_id) "fpo_purchase.json"
      (fpoMetadata d env.now) with e | u
  · simp [hw] at h
  · rcases hu : env.uploadFolder (batch_folder d.batch_id) with e | cid2
    · simp [hw, hu] at h
    · rcases hp : parseDid fdid with _ | did
      · simp [hw, hu, hp] at h
      · rcases hc : env.chainFpoPurchase (hash_string d.batch_id) did cid2 with e | tx2
        · simp [hw, hu, hp, hc] at h
        · simp only [hw, hu, hp, hc] at h ⊢
          obtain ⟨h1, h2⟩ := Prod.mk.injEq .. ▸ (Except.ok.injEq .. ▸ h)
          exact ⟨did, rfl, by simp [h1, h2]⟩

theorem record_fpo_purchase_err (env : Env) (fdid : String) (d : FpoPurchaseData)
    (e : String) (h : (record_fpo_purchase env fdid d).2 = .error e) :
    e ∈ ["Failed to write FPO metadata to batch folder",
         "Failed to upload batch folder to IPFS", "Invalid farmer DID",
         "Blockchain FPO purchase failed"] ∧
    chainTags (record_fpo_purchase env fdid d).1 = [] := by
  unfold record_fpo_purchase at h ⊢
  rcases hw : env.writeJsonToFolder (batch_folder d.batch_id) "fpo_purchase.json"
      (fpoMetadata d env.now) with e2 | u
  · simp [hw] at h ⊢
    simp [h, chainTags]
  · rcases hu : env.uploadFolder (batch_folder d.batch_id) with e2 | cid2
    · simp [hw, hu] at h ⊢
      simp [h, chainTags, chainTag]
    · rcases hp : parseDid fdid with _ | did
      · simp [hw, hu, hp] at h ⊢
        simp [h, chainTags, chainTag]
      · rcases hc : env.chainFpoPurchase (hash_string d.batch_id) did cid2 with e2 | tx2
        · simp [hw, hu, hp, hc] at h ⊢
          simp [h, chainTags, chainTag]
        · simp [hw, hu, hp, hc] at h

theorem record_warehouse_storage_ok (env : Env) (d : WarehouseData)
    (tx cid : String) (h : (record_warehouse_storage env d).2 = .ok (tx, cid)) :
    (record_warehouse_storage env d).1 =
      [.ipfsUploadJson (warehousePayload d env.now) cid,
       .warehouseUpdate (hash_string d.warehouse_id)
         (hash_bytes (strBytes (warehousePayload d env.now))) cid tx] := by
  unfold record_warehouse_storage at h ⊢
  rcases hu : env.uploadJson (warehousePayload d env.now) with e | cid2
  · simp [hu] at h
  · rcases hc : env.chainUpdateWarehouse (hash_string d.warehouse_id)
        (hash_bytes (strBytes (warehousePayload d env.now))) cid2 with e | tx2
    · simp [hu, hc] at h
    · simp only [hu, hc] at h ⊢
      obtain ⟨h1, h2⟩ := Prod.mk.injEq .. ▸ (Except.ok.injEq .. ▸ h)
      simp [h1, h2]

theorem record_warehouse_storage_err (env : Env) (d : WarehouseData) (e : String)
    (h : (record_warehouse_storage env d).2 = .error e) :
    e ∈ ["Failed to upload warehouse data to IPFS",
         "Blockchain warehouse update failed"] ∧
    chainTags (record_warehouse_storage env d).1 = [] := by
  unfold record_warehouse_storage at h ⊢
  rcases hu : env.uploadJson (warehousePayload d env.now) with e2 | cid2
  · simp [hu] at h ⊢
    simp [h, chainTags]
  · rcases hc : env.chainUpdateWarehouse (hash_string d.warehouse_id)
        (hash_bytes (strBytes (warehousePayload d env.now))) cid2 with e2 | tx2
    · simp [hu, hc] at h ⊢
      simp [h, chainTags, chainTag]
    · simp [hu, hc] at h

theorem journeyLoop_ok (env : Env) (d : LogisticsData) (cps : List Checkpoint)
    (idx : Nat) (evs : List Ev) (txs cids : List String)
    (h : journeyLoop env d idx cps = (evs, .ok (txs, cids))) :
    evs.filterMap logisticsView = flagsFrom d.checkpoints.length idx cps ∧
    chainTags evs = List.replicate cps.length .logi ∧
    evs.filterMap skuView = [] ∧
    txs.length = cps.length ∧ cids.length = cps.length := by
  induction cps generalizing idx evs txs cids with
  | nil =>
    simp only [journeyLoop, Prod.mk.injEq, Except.ok.injEq] at h
    obtain ⟨h1, h2, h3⟩ := h
    subst h1 h2 h3
    simp [flagsFrom, chainTags]
  | cons c rest ih =>
    simp only [journeyLoop] at h
    split at h
    · simp at h
    · split at h
      · simp at h
      · rcases hr : journeyLoop env d (idx + 1) rest with ⟨evs2, res2⟩
        rw [hr] at h
        rcases res2 with e2 | ⟨txs2, cids2⟩
        · simp [Except.map] at h
        · simp only [Except.map, Prod.mk.injEq, Except.ok.injEq] at h
          obtain ⟨h1, h2, h3⟩ := h
          obtain ⟨f1, f2, f3, f4, f5⟩ := ih (idx + 1) evs2 txs2 cids2 hr
          subst h1 h2 h3
          simp only [chainTags, List.filterMap_cons, logisticsView, skuView,
            chainTag, List.length_cons, List.replicate_succ] at f1 f2 f3 ⊢
          exact ⟨by rw [f1]; rfl, by rw [f2], f3, by simp [f4], by simp [f5]⟩

theorem journeyLoop_tags_below (env : Env) (d : LogisticsData)
    (cps : List Checkpoint) (idx : Nat) :
    chainTags (journeyLoop env d idx cps).1 <+:
      List.replicate cps.length STag.logi := by
  induction cps generalizing idx with
  | nil => simp [journeyLoop, chainTags]
  | cons c rest ih =>
    simp only [journeyLoop]
    split
    · simp [chainTags]
    · split
      · simp [chainTags, chainTag]
      · have hrec := ih (idx + 1)
        simp only [List.length_cons, List.replicate_succ, chainTags,
          List.filterMap_cons, chainTag]
        rw [List.cons_prefix_cons]
        exact ⟨rfl, by simpa [chainTags] using hrec⟩

theorem journeyLoop_err (env : Env) (d : LogisticsData) (cps : List Checkpoint)
    (idx : Nat) (e : String) (h : (journeyLoop env d idx cps).2 = .error e) :
    e ∈ ["Failed to upload logistics data to IPFS",
         "Blockchain logistics record failed"] := by
  induction cps generalizing idx with
  | nil => simp [journeyLoop] at h
  | cons c rest ih =>
    simp only [journeyLoop] at h
    split at h
    · simp at h
      simp [h]
    · split at h
      · simp at h
        simp [h]
      · rcases hr : journeyLoop env d (idx + 1) rest with ⟨evs2, res2⟩
        rw [hr] at h
        rcases res2 with e3 | p
        · simp only [Except.map] at h
          obtain rfl : e3 = e := by simpa using h
          exact ih (idx + 1) (by rw [hr])
        · simp [Except.map] at h

theorem flagsFrom_spec :
    ∀ (rest : List Checkpoint) (idx n : Nat), idx + rest.length = n →
      flagsFrom n idx rest =
        rest.dropLast.map (fun c => (hash_string c.location, false)) ++
        (rest.getLast?.map (fun c => (hash_string c.location, true))).toList := by
  intro rest
  induction rest with
  | nil => intro idx n h; simp [flagsFrom]
  | cons c rest ih =>
    intro idx n h
    have hstep : flagsFrom n idx (c :: rest) =
        (hash_string c.location, decide (idx = n - 1)) ::
          flagsFrom n (idx + 1) rest := rfl
    rcases rest with _ | ⟨c2, rest2⟩
    · have hidx : idx = n - 1 := by
        simp only [List.length_cons, List.length_nil] at h
        omega
      rw [hstep]
      simp [flagsFrom, hidx]
    · have hlt : ¬ (idx = n - 1) := by
        simp only [List.length_cons] at h
        omega
      have htail := ih (idx + 1) n (by simp only [List.length_cons] at h ⊢; omega)
      rw [hstep, htail]
      simp [hlt]

theorem process_batch_ok (env : Env) (ib : String) (d : ProcessingData)
    (tx cid : String) (outs : List String)
    (h : (process_batch env ib d).2 = .ok (tx, cid, outs)) :
    outs = d.output_products.map (fun p => p.product_id) ∧
    (process_batch env ib d).1 =
      [.ipfsWriteFolder (batch_folder ib) "processing.json"
         (processingMetadata ib d env.now),
       .ipfsUploadFolder (batch_folder ib) cid,
       .processBatch (hash_string ib)
         (hash_bytes (strBytes (processingMetadata ib d env.now)))
         (d.output_products.map (fun p => hash_string p.product_id)) cid tx] := by
  simp only [process_batch] at h ⊢
  split at h
  · simp at h
  · split at h
    · simp at h
    · split at h
      · simp at h
      · simp only [Except.ok.injEq, Prod.mk.injEq] at h
        obtain ⟨h1, h2, h3⟩ := h
        subst h1 h2 h3
        simp_all

theorem process_batch_err (env : Env) (ib : String) (d : ProcessingData)
    (e : String) (h : (process_batch env ib d).2 = .error e) :
    e ∈ ["Failed to write processing metadata to batch folder",
         "Failed to upload batch folder to IPFS",
         "Blockchain processing failed"] ∧
    chainTags (process_batch env ib d).1 = [] := by
  simp only [process_batch] at h ⊢
  split at h
  · simp at h
    simp [h, chainTags]
  · split at h
    · simp at h
      simp [h, chainTags, chainTag]
    · split at h
      · simp at h
        simp [h, chainTags, chainTag]
      · simp at h

theorem packagesLoop_ok (env : Env) (parent : String) (d : PackagingData)
    (nums : List Nat) (evs : List Ev) (txs cids skus : List String)
    (h : packagesLoop env parent d nums = (evs, .ok (txs, cids, skus))) :
    evs.filterMap skuView = nums.map (fun n =>
      (hash_string (d.sku_pfx ++ "-" ++ padNum 4 n), hash_string parent,
       specAggregate (specUnitIds d.sku_pfx n d.units_per_package))) ∧
    chainTags evs = List.replicate nums.length .sku ∧
    evs.filterMap logisticsView = [] ∧
    txs.length = nums.length ∧ cids.length = nums.length ∧
    skus.length = nums.length := by
  induction nums generalizing evs txs cids skus with
  | nil =>
    simp only [packagesLoop, Prod.mk.injEq, Except.ok.injEq] at h
    obtain ⟨h1, h2, h3, h4⟩ := h
    subst h1 h2 h3 h4
    simp [chainTags]
  | cons n rest ih =>
    simp only [packagesLoop] at h
    split at h
    · simp at h
    · split at h
      · simp at h
      · split at h
        · simp at h
        · rcases hr : packagesLoop env parent d rest with ⟨evs2, res2⟩
          rw [hr] at h
          rcases res2 with e2 | ⟨txs2, cids2, skus2⟩
          · simp [Except.map] at h
          · simp only [Except.map, Prod.mk.injEq, Except.ok.injEq] at h
            obtain ⟨h1, h2, h3, h4⟩ := h
            obtain ⟨f1, f2, f3, f4, f5, f6⟩ := ih evs2 txs2 cids2 skus2 hr
            subst h1 h2 h3 h4
            simp only [chainTags, List.filterMap_cons, logisticsView, skuView,
              chainTag, List.length_cons, List.replicate_succ, List.map_cons]
              at f1 f2 f3 ⊢
            refine ⟨?_, by rw [f2], f3, by simp [f4], by simp [f5], by simp [f6]⟩
            rw [f1]
            simp [specAggregate, specUnitIds, List.map_map, Function.comp_def,
              String.append_assoc]

theorem packagesLoop_tags_below (env : Env) (parent : String)
    (d : PackagingData) (nums : List Nat) :
    chainTags (packagesLoop env parent d nums).1 <+:
      List.replicate nums.length STag.sku := by
  induction nums with
  | nil => simp [packagesLoop, chainTags]
  | cons n rest ih =>
    simp only [packagesLoop]
    split
    · simp [chainTags]
    · split
      · simp [chainTags, chainTag]
      · split
        · simp [chainTags, chainTag]
        · simp only [List.length_cons, List.replicate_succ, chainTags,
            List.filterMap_cons, chainTag]
          rw [List.cons_prefix_cons]
          exact ⟨rfl, by simpa [chainTags] using ih⟩

theorem packagesLoop_err (env : Env) (parent : String) (d : PackagingData)
    (nums : List Nat) (e : String)
    (h : (packagesLoop env parent d nums).2 = .error e) :
    e ∈ ["Failed to write packaging metadata to batch folder",
         "Failed to upload batch folder to IPFS",
         "Blockchain SKU creation failed"] := by
  induction nums with
  | nil => simp [packagesLoop] at h
  | cons n rest ih =>
    simp only [packagesLoop] at h
    split at h
    · simp at h
      simp [h]
    · split at h
      · simp at h
        simp [h]
      · split at h
        · simp at h
          simp [h]
        · rcases hr : packagesLoop env parent d rest with ⟨evs2, res2⟩
          rw [hr] at h
          rcases res2 with e3 | p
          · simp only [Except.map] at h
            obtain rfl : e3 = e := by simpa using h
            exact ih (by rw [hr])
          · simp [Except.map] at h

theorem execute_ai_scoring_ok (env : Env) (b : String) (d : AiScoringData)
    (ctx rtx cid : String)
    (h : (execute_ai_scoring env b d).2 = .ok (ctx, rtx, cid)) :
    (execute_ai_scoring env b d).1 =
      [.ipfsWriteFolder (batch_folder b) "ai_score.json"
         (aiScorePayload b d env.now),
       .ipfsUploadFolder (batch_folder b) cid,
       .commitScore (hash_string b)
         (generate_commit_hash (hash_bytes (strBytes (aiScorePayload b d env.now)))
           ⟨env.nonce⟩) ctx,
       .revealScore (hash_string b)
         (hash_bytes (strBytes (aiScorePayload b d env.now))) ⟨env.nonce⟩ cid rtx] := by
  simp only [execute_ai_scoring] at h ⊢
  split at h
  · simp at h
  · split at h
    · simp at h
    · split at h
      · simp at h
      · split at h
        · simp at h
        · simp only [Except.ok.injEq, Prod.mk.injEq] at h
          obtain ⟨h1, h2, h3⟩ := h
          subst h1 h2 h3
          simp_all

theorem execute_ai_scoring_err (env : Env) (b : String) (d : AiScoringData)
    (e : String) (h : (execute_ai_scoring env b d).2 = .error e) :
    e ∈ ["Failed to write AI score to batch folder",
         "Failed to upload batch folder to IPFS",
         "Blockchain AI commit failed", "Blockchain AI reveal failed"] ∧
    chainTags (execute_ai_scoring env b d).1 <+: [STag.cmt, STag.rvl] := by
  simp only [execute_ai_scoring] at h ⊢
  split at h
  · simp at h
    simp [h, chainTags]
  · split at h
    · simp at h
      simp [h, chainTags, chainTag]
    · split at h
      · simp at h
        simp [h, chainTags, chainTag]
      · split at h
        · simp at h
          simp [h, chainTags, chainTag, List.cons_prefix_cons]
        · simp at h

/-! ### Workflow claim theorems -/

/-- C4: `generate_commit_hash(reveal, nonce)` equals the hash of the byte
concatenation of `reveal` followed by `nonce` (reveal first), and it is
deterministic: equal `(reveal, nonce)` pairs yield an equal commit digest. -/
theorem C4_commit_hash (reveal nonce reveal2 nonce2 : B32)
    (hr : reveal = reveal2) (hn : nonce = nonce2) :
    generate_commit_hash reveal nonce = hash_bytes (reveal.data ++ nonce.data) ∧
    generate_commit_hash reveal nonce = generate_commit_hash reveal2 nonce2 := by
  subst hr hn
  exact ⟨by simp [generate_commit_hash, hash_bytes], rfl⟩

/-- Witness for C4 at concrete digests. -/
theorem C4_commit_hash_witness :
    generate_commit_hash (B32.mk [1, 2]) (B32.mk [3]) =
      hash_bytes ((B32.mk [1, 2]).data ++ (B32.mk [3]).data) ∧
    generate_commit_hash (B32.mk [1, 2]) (B32.mk [3]) =
      generate_commit_hash (B32.mk [1, 2]) (B32.mk [3]) :=
  C4_commit_hash (B32.mk [1, 2]) (B32.mk [3]) (B32.mk [1, 2]) (B32.mk [3]) rfl rfl

/-- C10: `record_logistics_journey` on an empty checkpoint list succeeds,
returns two empty vectors, and performs no content-store uploads and no
ledger submissions (the loop body containing the `len() - 1` computation is
never entered). -/
theorem C10_empty_checkpoints (env : Env)
    (shipment_id origin destination : String) :
    record_logistics_journey env
      { shipment_id := shipment_id, origin := origin,
        destination := destination, checkpoints := [] } =
      ([], .ok ([], [])) := rfl

/-- C5: a completed `create_retail_packages` run submits exactly
`total_packages` Merkle-style aggregate hashes, the `k`-th computed over
exactly `units_per_package` unit-identifier hashes concatenated in
generation order, with unit identifiers `"{sku_prefix}-{k:04}-U{n:03}"` for
`n` from 1 to `units_per_package`. -/
theorem C5_packaging_merkle (env : Env) (parent : String) (d : PackagingData)
    (h : isOkE (create_retail_packages env parent d).2 = true) :
    (create_retail_packages env parent d).1.filterMap skuView =
      (List.range d.total_packages).map (fun j =>
        (hash_string (d.sku_pfx ++ "-" ++ padNum 4 (j + 1)), hash_string parent,
         specAggregate (specUnitIds d.sku_pfx (j + 1) d.units_per_package))) ∧
    ((create_retail_packages env parent d).1.filterMap skuView).length =
      d.total_packages ∧
    (∀ k, (specUnitIds d.sku_pfx k d.units_per_package).length =
      d.units_per_package) := by
  rcases hres : (create_retail_packages env parent d).2 with e | ⟨txs, cids, skus⟩
  · rw [hres] at h
    simp [isOkE] at h
  · have hloop : packagesLoop env parent d
        ((List.range d.total_packages).map (fun j => j + 1)) =
        ((create_retail_packages env parent d).1, .ok (txs, cids, skus)) := by
      rw [← hres]
      rfl
    obtain ⟨f1, _, _, _, _, _⟩ := packagesLoop_ok env parent d
      ((List.range d.total_packages).map (fun j => j + 1))
      (create_retail_packages env parent d).1 txs cids skus hloop
    refine ⟨?_, ?_, fun k => by simp [specUnitIds]⟩
    · rw [f1, List.map_map]
      rfl
    · rw [f1]
      simp

/-- Witness for C5: three packages of two units, all calls succeeding. -/
theorem C5_packaging_merkle_witness :
    (create_retail_packages envAllOk "BATCH-1"
        { sku_pfx := "SKU", package_type := "box", units_per_package := 2,
          total_packages := 3, expiry_months := 6 }).1.filterMap skuView =
      (List.range 3).map (fun j =>
        (hash_string ("SKU" ++ "-" ++ padNum 4 (j + 1)), hash_string "BATCH-1",
         specAggregate (specUnitIds "SKU" (j + 1) 2))) ∧
    ((create_retail_packages envAllOk "BATCH-1"
        { sku_pfx := "SKU", package_type := "box", units_per_package := 2,
          total_packages := 3, expiry_months := 6 }).1.filterMap skuView).length =
      3 ∧
    (∀ k, (specUnitIds "SKU" k 2).length = 2) :=
  C5_packaging_merkle envAllOk "BATCH-1"
    { sku_pfx := "SKU", package_type := "box", units_per_package := 2,
      total_packages := 3, expiry_months := 6 } (by rfl)

/-- C6: in a completed run the seven stages submit strictly in pipeline
order — Registration, Purchase, Storage, one Transport submission per
checkpoint, Processing, one Packaging submission per package, then the two
Scoring submissions exactly when scoring input is supplied — and within
Transport the checkpoints are submitted in input order with exactly the
last checkpoint of a non-empty list marked as the delivery event. -/
theorem C6_pipeline_order (env : Env) (data : CompleteWorkflowData)
    (h : isOkE (execute_full_workflow env data).2 = true) :
    chainTags (execute_full_workflow env data).1 = expectedTags data ∧
    (execute_full_workflow env data).1.filterMap logisticsView =
      expectedLogistics data.logistics := by
  rcases hs1 : register_farmer env data.farmer with ⟨e1, r1⟩
  rcases r1 with fe | ⟨ftx, fcid⟩
  · simp [execute_full_workflow, hs1, isOkE] at h
  rcases hs2 : record_fpo_purchase env data.farmer.farmer_did data.fpo_purchase
    with ⟨e2, r2⟩
  rcases r2 with pe | ⟨ptx, pcid⟩
  · simp [execute_full_workflow, hs1, hs2, isOkE] at h
  rcases hs3 : record_warehouse_storage env data.warehouse with ⟨e3, r3⟩
  rcases r3 with we | ⟨wtx, wcid⟩
  · simp [execute_full_workflow, hs1, hs2, hs3, isOkE] at h
  rcases hs4 : record_logistics_journey env data.logistics with ⟨e4, r4⟩
  rcases r4 with le | ⟨ltxs, lcids⟩
  · simp [execute_full_workflow, hs1, hs2, hs3, hs4, isOkE] at h
  rcases hs5 : process_batch env data.fpo_purchase.batch_id data.processing
    with ⟨e5, r5⟩
  rcases r5 with pre | ⟨prtx, prcid, outs5⟩
  · simp [execute_full_workflow, hs1, hs2, hs3, hs4, hs5, isOkE] at h
  rcases houts : outs5 with _ | ⟨b0, brest⟩
  · simp [execute_full_workflow, hs1, hs2, hs3, hs4, hs5, houts, isOkE] at h
  rcases hs6 : create_retail_packages env b0 data.packaging with ⟨e6, r6⟩
  rcases r6 with ke | ⟨ktxs, kcids, skus⟩
  · simp [execute_full_workflow, hs1, hs2, hs3, hs4, hs5, houts, hs6, isOkE] at h
  obtain ⟨did1, hdid1, he1⟩ := register_farmer_ok env data.farmer ftx fcid
    (by rw [hs1])
  simp only [hs1] at he1
  obtain ⟨did2, hdid2, he2⟩ := record_fpo_purchase_ok env data.farmer.farmer_did
    data.fpo_purchase ptx pcid (by rw [hs2])
  simp only [hs2] at he2
  have he3 := record_warehouse_storage_ok env data.warehouse wtx wcid
    (by rw [hs3])
  simp only [hs3] at he3
  obtain ⟨j1, j2, j3, j4, j5⟩ := journeyLoop_ok env data.logistics
    data.logistics.checkpoints 0 e4 ltxs lcids hs4
  obtain ⟨ho5, he5⟩ := process_batch_ok env data.fpo_purchase.batch_id
    data.processing prtx prcid outs5 (by rw [hs5])
  simp only [hs5] at he5
  obtain ⟨k1, k2, k3, k4, k5, k6⟩ := packagesLoop_ok env b0 data.packaging
    ((List.range data.packaging.total_packages).map (fun j => j + 1))
    e6 ktxs kcids skus hs6
  have hflags : e4.filterMap logisticsView = expectedLogistics data.logistics := by
    rw [j1, flagsFrom_spec data.logistics.checkpoints 0
      data.logistics.checkpoints.length (by simp)]
    rfl
  subst he1 he2 he3 he5
  rcases hai : data.ai_scoring with _ | ai
  · simp only [execute_full_workflow, hs1, hs2, hs3, hs4, hs5, houts, hs6, hai]
    constructor
    · simp [chainTags, List.filterMap_append, List.filterMap_cons, chainTag,
        expectedTags, hai]
      rw [show List.filterMap chainTag e4 = chainTags e4 from rfl, j2,
        show List.filterMap chainTag e6 = chainTags e6 from rfl, k2]
      simp
    · simp [List.filterMap_append, List.filterMap_cons, logisticsView,
        ← hflags, k3]
  · rcases hs7 : execute_ai_scoring env data.fpo_purchase.batch_id ai
      with ⟨e7, r7⟩
    rcases r7 with ae | ⟨atx, artx, acid⟩
    · simp [execute_full_workflow, hs1, hs2, hs3, hs4, hs5, houts, hs6, hai,
        hs7, isOkE] at h
    have he7 := execute_ai_scoring_ok env data.fpo_purchase.batch_id ai
      atx artx acid (by rw [hs7])
    simp only [hs7] at he7
    subst he7
    simp only [execute_full_workflow, hs1, hs2, hs3, hs4, hs5, houts, hs6, hai,
      hs7]
    constructor
    · simp [chainTags, List.filterMap_append, List.filterMap_cons, chainTag,
        expectedTags, hai]
      rw [show List.filterMap chainTag e4 = chainTags e4 from rfl, j2,
        show List.filterMap chainTag e6 = chainTags e6 from rfl, k2]
      simp
    · simp [List.filterMap_append, List.filterMap_cons, logisticsView,
        ← hflags, k3]

/-- Witness for C6 at a concrete succeeding run with scoring supplied. -/
theorem C6_pipeline_order_witness :
    chainTags (execute_full_workflow envAllOk demoData).1 =
      expectedTags demoData ∧
    (execute_full_workflow envAllOk demoData).1.filterMap logisticsView =
      expectedLogistics demoData.logistics :=
  C6_pipeline_order envAllOk demoData (by rfl)

/-- A prefix stays a prefix under a longer tail. -/
theorem prefix_extend {α : Type} {p m : List α} (h : p <+: m) (r : List α) :
    p <+: m ++ r :=
  h.trans (List.prefix_append m r)

/-- A prefix stays a prefix under a common front block. -/
theorem prefix_under {α : Type} (l : List α) {p m : List α} (h : p <+: m) :
    l ++ p <+: l ++ m := by
  obtain ⟨t, ht⟩ := h
  exact ⟨t, by rw [← ht, List.append_assoc]⟩

/-- C8 counterexample: a fully successful run with scoring supplied (all
oracles succeed, scoring input present and both scoring submissions
recorded) yields `summary.successful_stages = 6`, not 7: the scoring stage
does not increment the success counter. -/
theorem C8_counterexample :
    (execute_full_workflow envAllOk demoData).2.map
        (fun r => r.summary.successful_stages) = .ok 6 ∧
    (execute_full_workflow envAllOk demoData).2.map
        (fun r => r.ai_commit_tx.isSome) = .ok true ∧
    (execute_full_workflow envAllOk demoData).2.map
        (fun r => r.summary.total_stages) = .ok 7 ∧
    (6 : Nat) ≠ 7 := by
  refine ⟨by rfl, by rfl, by rfl, by decide⟩

/-- C8 amended: every mandatory stage that completes records its
transaction/content identifiers and increments the success counters, and
the optional Scoring stage records its identifiers but does not increment
`successful_stages`; hence any completed run reports
`successful_stages = 6` (with `total_stages = 7`), scoring identifiers
present exactly when scoring input was supplied, and one recorded
transaction per checkpoint and per package. -/
theorem C8_amended_counters (env : Env) (data : CompleteWorkflowData) :
    (execute_full_workflow env data).2.map (fun r =>
      (r.summary.successful_stages, r.summary.total_stages,
       r.ai_commit_tx.isSome, r.ai_reveal_tx.isSome,
       r.ipfs_cids.ai_metadata.isSome,
       r.logistics_txs.length, r.packaging_txs.length)) =
    (execute_full_workflow env data).2.map (fun _ =>
      (6, 7, data.ai_scoring.isSome, data.ai_scoring.isSome,
       data.ai_scoring.isSome, data.logistics.checkpoints.length,
       data.packaging.total_packages)) := by
  rcases hs1 : register_farmer env data.farmer with ⟨e1, r1⟩
  rcases r1 with fe | ⟨ftx, fcid⟩
  · simp [execute_full_workflow, hs1, Except.map]
  rcases hs2 : record_fpo_purchase env data.farmer.farmer_did data.fpo_purchase
    with ⟨e2, r2⟩
  rcases r2 with pe | ⟨ptx, pcid⟩
  · simp [execute_full_workflow, hs1, hs2, Except.map]
  rcases hs3 : record_warehouse_storage env data.warehouse with ⟨e3, r3⟩
  rcases r3 with we | ⟨wtx, wcid⟩
  · simp [execute_full_workflow, hs1, hs2, hs3, Except.map]
  rcases hs4 : record_logistics_journey env data.logistics with ⟨e4, r4⟩
  rcases r4 with le | ⟨ltxs, lcids⟩
  · simp [execute_full_workflow, hs1, hs2, hs3, hs4, Except.map]
  rcases hs5 : process_batch env data.fpo_purchase.batch_id data.processing
    with ⟨e5, r5⟩
  rcases r5 with pre | ⟨prtx, prcid, outs5⟩
  · simp [execute_full_workflow, hs1, hs2, hs3, hs4, hs5, Except.map]
  rcases houts : outs5 with _ | ⟨b0, brest⟩
  · simp [execute_full_workflow, hs1, hs2, hs3, hs4, hs5, houts, Except.map]
  rcases hs6 : create_retail_packages env b0 data.packaging with ⟨e6, r6⟩
  rcases r6 with ke | ⟨ktxs, kcids, skus⟩
  · simp [execute_full_workflow, hs1, hs2, hs3, hs4, hs5, houts, hs6, Except.map]
  obtain ⟨_, _, _, j4, _⟩ := journeyLoop_ok env data.logistics
    data.logistics.checkpoints 0 e4 ltxs lcids hs4
  obtain ⟨_, _, _, k4, _, _⟩ := packagesLoop_ok env b0 data.packaging
    ((List.range data.packaging.total_packages).map (fun j => j + 1))
    e6 ktxs kcids skus hs6
  rcases hai : data.ai_scoring with _ | ai
  · simp [execute_full_workflow, hs1, hs2, hs3, hs4, hs5, houts, hs6, hai,
      Except.map, execute_full_workflow.finishResult, emptyResult, j4, k4]
  · rcases hs7 : execute_ai_scoring env data.fpo_purchase.batch_id ai
      with ⟨e7, r7⟩
    rcases r7 with ae | ⟨atx, artx, acid⟩
    · simp [execute_full_workflow, hs1, hs2, hs3, hs4, hs5, houts, hs6, hai,
        hs7, Except.map]
    · simp [execute_full_workflow, hs1, hs2, hs3, hs4, hs5, houts, hs6, hai,
        hs7, Except.map, execute_full_workflow.finishResult, emptyResult, j4, k4]

theorem chainTags_append (a b : List Ev) :
    chainTags (a ++ b) = chainTags a ++ chainTags b := by
  simp [chainTags]

theorem exec_err_mem (env : Env) (data : CompleteWorkflowData) (e : String)
    (h : (execute_full_workflow env data).2 = .error e) :
    e ∈ workflowErrorMessages := by
  rcases hs1 : register_farmer env data.farmer with ⟨e1, r1⟩
  rcases r1 with fe | ⟨ftx, fcid⟩
  · simp only [execute_full_workflow, hs1] at h
    obtain rfl : fe = e := by simpa using h
    have hm := (register_farmer_err env data.farmer fe (by rw [hs1])).1
    simp only [List.mem_cons, List.not_mem_nil, or_false] at hm
    rcases hm with rfl | rfl | rfl <;> decide
  rcases hs2 : record_fpo_purchase env data.farmer.farmer_did data.fpo_purchase
    with ⟨e2, r2⟩
  rcases r2 with pe | ⟨ptx, pcid⟩
  · simp only [execute_full_workflow, hs1, hs2] at h
    obtain rfl : pe = e := by simpa using h
    have hm := (record_fpo_purchase_err env data.farmer.farmer_did
      data.fpo_purchase pe (by rw [hs2])).1
    simp only [List.mem_cons, List.not_mem_nil, or_false] at hm
    rcases hm with rfl | rfl | rfl | rfl <;> decide
  rcases hs3 : record_warehouse_storage env data.warehouse with ⟨e3, r3⟩
  rcases r3 with we | ⟨wtx, wcid⟩
  · simp only [execute_full_workflow, hs1, hs2, hs3] at h
    obtain rfl : we = e := by simpa using h
    have hm := (record_warehouse_storage_err env data.warehouse we (by rw [hs3])).1
    simp only [List.mem_cons, List.not_mem_nil, or_false] at hm
    rcases hm with rfl | rfl <;> decide
  rcases hs4 : record_logistics_journey env data.logistics with ⟨e4, r4⟩
  rcases r4 with le | ⟨ltxs, lcids⟩
  · simp only [execute_full_workflow, hs1, hs2, hs3, hs4] at h
    obtain rfl : le = e := by simpa using h
    have hm := journeyLoop_err env data.logistics data.logistics.checkpoints 0 le
      (by rw [show journeyLoop env data.logistics 0 data.logistics.checkpoints =
        (e4, Except.error le) from hs4])
    simp only [List.mem_cons, List.not_mem_nil, or_false] at hm
    rcases hm with rfl | rfl <;> decide
  rcases hs5 : process_batch env data.fpo_purchase.batch_id data.processing
    with ⟨e5, r5⟩
  rcases r5 with pre | ⟨prtx, prcid, outs5⟩
  · simp only [execute_full_workflow, hs1, hs2, hs3, hs4, hs5] at h
    obtain rfl : pre = e := by simpa using h
    have hm := (process_batch_err env data.fpo_purchase.batch_id data.processing
      pre (by rw [hs5])).1
    simp only [List.mem_cons, List.not_mem_nil, or_false] at hm
    rcases hm with rfl | rfl | rfl <;> decide
  rcases houts : outs5 with _ | ⟨b0, brest⟩
  · simp only [execute_full_workflow, hs1, hs2, hs3, hs4, hs5, houts] at h
    obtain rfl : "index out of bounds: the len is 0 but the index is 0" = e := by
      simpa using h
    decide
  rcases hs6 : create_retail_packages env b0 data.packaging with ⟨e6, r6⟩
  rcases r6 with ke | ⟨ktxs, kcids, skus⟩
  · simp only [execute_full_workflow, hs1, hs2, hs3, hs4, hs5, houts, hs6] at h
    obtain rfl : ke = e := by simpa using h
    have hm := packagesLoop_err env b0 data.packaging
      ((List.range data.packaging.total_packages).map (fun j => j + 1)) ke
      (by rw [show packagesLoop env b0 data.packaging
        ((List.range data.packaging.total_packages).map (fun j => j + 1)) =
        (e6, Except.error ke) from hs6])
    simp only [List.mem_cons, List.not_mem_nil, or_false] at hm
    rcases hm with rfl | rfl | rfl <;> decide
  rcases hai : data.ai_scoring with _ | ai
  · simp only [execute_full_workflow, hs1, hs2, hs3, hs4, hs5, houts, hs6,
      hai] at h
    simp at h
  · rcases hs7 : execute_ai_scoring env data.fpo_purchase.batch_id ai
      with ⟨e7, r7⟩
    rcases r7 with ae | ⟨atx, artx, acid⟩
    · simp only [execute_full_workflow, hs1, hs2, hs3, hs4, hs5, houts, hs6,
        hai, hs7] at h
      obtain rfl : ae = e := by simpa using h
      have hm := (execute_ai_scoring_err env data.fpo_purchase.batch_id ai ae
        (by rw [hs7])).1
      simp only [List.mem_cons, List.not_mem_nil, or_false] at hm
      rcases hm with rfl | rfl | rfl | rfl <;> decide
    · simp only [execute_full_workflow, hs1, hs2, hs3, hs4, hs5, houts, hs6,
        hai, hs7] at h
      simp at h

theorem exec_tags_below (env : Env) (data : CompleteWorkflowData) :
    chainTags (execute_full_workflow env data).1 <+: expectedTags data := by
  rcases hs1 : register_farmer env data.farmer with ⟨e1, r1⟩
  rcases r1 with fe | ⟨ftx, fcid⟩
  · simp only [execute_full_workflow, hs1]
    have ht := (register_farmer_err env data.farmer fe (by rw [hs1])).2
    simp only [hs1] at ht
    rw [ht]
    exact List.nil_prefix
  obtain ⟨did1, hdid1, he1⟩ := register_farmer_ok env data.farmer ftx fcid
    (by rw [hs1])
  simp only [hs1] at he1
  subst he1
  rcases hs2 : record_fpo_purchase env data.farmer.farmer_did data.fpo_purchase
    with ⟨e2, r2⟩
  rcases r2 with pe | ⟨ptx, pcid⟩
  · simp only [execute_full_workflow, hs1, hs2]
    have ht := (record_fpo_purchase_err env data.farmer.farmer_did
      data.fpo_purchase pe (by rw [hs2])).2
    simp only [hs2, chainTags] at ht
    simp only [chainTags, List.filterMap_append, List.filterMap_cons,
      List.filterMap_nil, chainTag, expectedTags, List.cons_append,
      List.nil_append, List.append_nil, List.append_assoc, ht,
      List.cons_prefix_cons, true_and]
    exact List.nil_prefix
  obtain ⟨did2, hdid2, he2⟩ := record_fpo_purchase_ok env data.farmer.farmer_did
    data.fpo_purchase ptx pcid (by rw [hs2])
  simp only [hs2] at he2
  subst he2
  rcases hs3 : record_warehouse_storage env data.warehouse with ⟨e3, r3⟩
  rcases r3 with we | ⟨wtx, wcid⟩
  · simp only [execute_full_workflow, hs1, hs2, hs3]
    have ht := (record_warehouse_storage_err env data.warehouse we
      (by rw [hs3])).2
    simp only [hs3, chainTags] at ht
    simp only [chainTags, List.filterMap_append, List.filterMap_cons,
      List.filterMap_nil, chainTag, expectedTags, List.cons_append,
      List.nil_append, List.append_nil, List.append_assoc, ht,
      List.cons_prefix_cons, true_and]
    exact List.nil_prefix
  have he3 := record_warehouse_storage_ok env data.warehouse wtx wcid
    (by rw [hs3])
  simp only [hs3] at he3
  subst he3
  rcases hs4 : record_logistics_journey env data.logistics with ⟨e4, r4⟩
  have hj := journeyLoop_tags_below env data.logistics
    data.logistics.checkpoints 0
  rw [show journeyLoop env data.logistics 0 data.logistics.checkpoints =
    (e4, r4) from hs4] at hj
  simp only [chainTags] at hj
  rcases r4 with le | ⟨ltxs, lcids⟩
  · simp only [execute_full_workflow, hs1, hs2, hs3, hs4]
    simp only [chainTags, List.filterMap_append, List.filterMap_cons,
      List.filterMap_nil, chainTag, expectedTags, List.cons_append,
      List.nil_append, List.append_nil, List.append_assoc,
      List.cons_prefix_cons, true_and]
    exact prefix_extend hj _
  obtain ⟨j1, j2, j3, j4, j5⟩ := journeyLoop_ok env data.logistics
    data.logistics.checkpoints 0 e4 ltxs lcids hs4
  simp only [chainTags] at j2
  rcases hs5 : process_batch env data.fpo_purchase.batch_id data.processing
    with ⟨e5, r5⟩
  rcases r5 with pre | ⟨prtx, prcid, outs5⟩
  · simp only [execute_full_workflow, hs1, hs2, hs3, hs4, hs5]
    have ht := (process_batch_err env data.fpo_purchase.batch_id data.processing
      pre (by rw [hs5])).2
    simp only [hs5, chainTags] at ht
    simp only [chainTags, List.filterMap_append, List.filterMap_cons,
      List.filterMap_nil, chainTag, expectedTags, List.cons_append,
      List.nil_append, List.append_nil, List.append_assoc, ht, j2,
      List.cons_prefix_cons, true_and]
    exact List.prefix_append _ _
  obtain ⟨ho5, he5⟩ := process_batch_ok env data.fpo_purchase.batch_id
    data.processing prtx prcid outs5 (by rw [hs5])
  simp only [hs5] at he5
  subst he5
  rcases houts : outs5 with _ | ⟨b0, brest⟩
  · simp only [execute_full_workflow, hs1, hs2, hs3, hs4, hs5, houts]
    simp only [chainTags, List.filterMap_append, List.filterMap_cons,
      List.filterMap_nil, chainTag, expectedTags, List.cons_append,
      List.nil_append, List.append_nil, List.append_assoc, j2,
      List.cons_prefix_cons, true_and]
    apply prefix_under
    simp [List.cons_prefix_cons, List.nil_prefix]
  rcases hs6 : create_retail_packages env b0 data.packaging with ⟨e6, r6⟩
  have hk := packagesLoop_tags_below env b0 data.packaging
    ((List.range data.packaging.total_packages).map (fun j => j + 1))
  rw [show packagesLoop env b0 data.packaging
    ((List.range data.packaging.total_packages).map (fun j => j + 1)) =
    (e6, r6) from hs6] at hk
  simp only [chainTags, List.length_map, List.length_range] at hk
  rcases r6 with ke | ⟨ktxs, kcids, skus⟩
  · simp only [execute_full_workflow, hs1, hs2, hs3, hs4, hs5, houts, hs6]
    simp only [chainTags, List.filterMap_append, List.filterMap_cons,
      List.filterMap_nil, chainTag, expectedTags, List.cons_append,
      List.nil_append, List.append_nil, List.append_assoc, j2,
      List.cons_prefix_cons, true_and]
    apply prefix_under
    simp only [List.cons_prefix_cons, true_and]
    exact prefix_extend hk _
  obtain ⟨k1, k2, k3, k4, k5, k6⟩ := packagesLoop_ok env b0 data.packaging
    ((List.range data.packaging.total_packages).map (fun j => j + 1))
    e6 ktxs kcids skus hs6
  have k2' : List.filterMap chainTag e6 =
      List.replicate data.packaging.total_packages .sku := by
    have := k2
    simp only [chainTags, List.length_map, List.length_range] at this
    exact this
  rcases hai : data.ai_scoring with _ | ai
  · simp only [execute_full_workflow, hs1, hs2, hs3, hs4, hs5, houts, hs6, hai]
    simp only [chainTags, List.filterMap_append, List.filterMap_cons,
      List.filterMap_nil, chainTag, expectedTags, hai, List.cons_append,
      List.nil_append, List.append_nil, List.append_assoc, j2, k2',
      List.cons_prefix_cons, true_and]
    exact List.prefix_refl _
  · rcases hs7 : execute_ai_scoring env data.fpo_purchase.batch_id ai
      with ⟨e7, r7⟩
    rcases r7 with ae | ⟨atx, artx, acid⟩
    · simp only [execute_full_workflow, hs1, hs2, hs3, hs4, hs5, houts, hs6,
        hai, hs7]
      have ha := (execute_ai_scoring_err env data.fpo_purchase.batch_id ai ae
        (by rw [hs7])).2
      simp only [hs7, chainTags] at ha
      simp only [chainTags, List.filterMap_append, List.filterMap_cons,
        List.filterMap_nil, chainTag, expectedTags, hai, List.cons_append,
        List.nil_append, List.append_nil, List.append_assoc, j2, k2',
        List.cons_prefix_cons, true_and]
      apply prefix_under
      simp only [List.cons_prefix_cons, true_and]
      apply prefix_under
      exact ha
    · have he7 := execute_ai_scoring_ok env data.fpo_purchase.batch_id ai
        atx artx acid (by rw [hs7])
      simp only [hs7] at he7
      subst he7
      simp only [execute_full_workflow, hs1, hs2, hs3, hs4, hs5, houts, hs6,
        hai, hs7]
      simp only [chainTags, List.filterMap_append, List.filterMap_cons,
        List.filterMap_nil, chainTag, expectedTags, hai, List.cons_append,
        List.nil_append, List.append_nil, List.append_assoc, j2, k2',
        List.cons_prefix_cons, true_and]
      exact List.prefix_refl _

/-- C7 counterexample: the returned error does not always identify the
failing stage.  The context message "Failed to upload batch folder to IPFS"
is shared by the evidence-folder uploads of the Purchase, Processing,
Packaging and Scoring stages: with the batch folder's upload failing the
run aborts during Purchase (only the Registration submission committed),
while with the output product's folder upload failing it aborts during
Packaging (Registration, Purchase, Storage, Transport and Processing all
committed) — yet both runs return the identical error value. -/
theorem C7_counterexample :
    (execute_full_workflow envBatchFolderFail demoData).2 =
      .error "Failed to upload batch folder to IPFS" ∧
    chainTags (execute_full_workflow envBatchFolderFail demoData).1 =
      [.reg] ∧
    (execute_full_workflow envProductFolderFail demoData).2 =
      .error "Failed to upload batch folder to IPFS" ∧
    chainTags (execute_full_workflow envProductFolderFail demoData).1 =
      [.reg, .fpo, .wh, .logi, .proc] :=
  ⟨by rfl, by rfl, by rfl, by rfl⟩

/-- C7 amended: any failing external call aborts the run with an error
value instead of a result, the error is one of the stages' context
messages (each naming the failing operation; all unique to one stage
except the batch-folder upload message shared by Purchase, Processing,
Packaging and Scoring), the committed submissions always form a prefix of
the pipeline order — earlier stages' effects are retained, nothing later
is executed — and in the transport-failure scenario the error is the
Transport-specific message with exactly the Registration, Purchase and
Storage submissions committed. -/
theorem C7_failure_semantics :
    (∀ (env : Env) (data : CompleteWorkflowData) (e : String),
        (execute_full_workflow env data).2 = .error e →
        e ∈ workflowErrorMessages) ∧
    (∀ (env : Env) (data : CompleteWorkflowData),
        chainTags (execute_full_workflow env data).1 <+: expectedTags data) ∧
    (execute_full_workflow envTransportFail demoData).2 =
      .error "Blockchain logistics record failed" ∧
    chainTags (execute_full_workflow envTransportFail demoData).1 =
      [.reg, .fpo, .wh] :=
  ⟨exec_err_mem, exec_tags_below, by rfl, by rfl⟩

/-- Witness for the amended C7 at the transport-failure scenario. -/
theorem C7_failure_semantics_witness :
    "Blockchain logistics record failed" ∈ workflowErrorMessages ∧
    chainTags (execute_full_workflow envTransportFail demoData).1 <+:
      expectedTags demoData :=
  ⟨C7_failure_semantics.1 envTransportFail demoData
      "Blockchain logistics record failed" (by rfl),
   C7_failure_semantics.2.1 envTransportFail demoData⟩
